import Mathlib

/-!
Verification of the scrape-orchestration and data-normalization core of the
PRSocials backend (Python sources under `app/apis/`).  The Python code is
shallowly embedded: Python `str` becomes `List Char`, Python `float`
becomes the exact rational type `PyFloat` below (all float computations in
the modelled code stay well within the range where IEEE doubles are exact
or where only comparisons matter), Python `int` becomes `Int`, raising an
exception becomes `Except`, and the ambient randomness / wall clock / HTTP
collaborators become explicit oracle parameters.
-/

/-- Exact rational stand-in for Python floats: a numerator over a positive
denominator, without normalization (all operations below keep the
denominator positive, so comparisons by cross-multiplication are exact).
Exact rationals agree with IEEE doubles only while every value and product
stays exactly representable (integers up to 2⁵³, magnitudes below
DBL_MAX ≈ 1.8·10³⁰⁸): outside that regime CPython rounds to 53 bits or
overflows to infinity, which this type cannot express.  Every theorem
below that quantifies over unbounded numeric inputs therefore carries an
explicit hypothesis confining the statement to the exact regime. -/
structure PyFloat where
  num : Int
  den : Int
  denPos : 0 < den

namespace PyFloat

/-- Build a value `n / d`; a non-positive `d` (never used) falls back to
denominator 1. -/
def mkQ (n : Int) (d : Int) : PyFloat :=
  if h : 0 < d then ⟨n, d, h⟩ else ⟨n, 1, Int.zero_lt_one⟩

/-- Embed an integer. -/
def ofInt (n : Int) : PyFloat := ⟨n, 1, Int.zero_lt_one⟩

instance : OfNat PyFloat n := ⟨ofInt n⟩

protected def add (a b : PyFloat) : PyFloat :=
  ⟨a.num * b.den + b.num * a.den, a.den * b.den, Int.mul_pos a.denPos b.denPos⟩

protected def sub (a b : PyFloat) : PyFloat :=
  ⟨a.num * b.den - b.num * a.den, a.den * b.den, Int.mul_pos a.denPos b.denPos⟩

protected def mul (a b : PyFloat) : PyFloat :=
  ⟨a.num * b.num, a.den * b.den, Int.mul_pos a.denPos b.denPos⟩

/-- Division; division by zero (never reachable in the modelled code, where
every divisor is 100, 10ⁿ or `1 + rate` with a positive rate) returns 0. -/
protected def div (a b : PyFloat) : PyFloat :=
  if h : 0 < b.num then ⟨a.num * b.den, a.den * b.num, Int.mul_pos a.denPos h⟩
  else if h2 : b.num < 0 then
    ⟨-(a.num * b.den), a.den * (-b.num), Int.mul_pos a.denPos (by omega)⟩
  else ⟨0, 1, Int.zero_lt_one⟩

instance : Add PyFloat := ⟨PyFloat.add⟩
instance : Sub PyFloat := ⟨PyFloat.sub⟩
instance : Mul PyFloat := ⟨PyFloat.mul⟩
instance : Div PyFloat := ⟨PyFloat.div⟩

protected def lt (a b : PyFloat) : Prop := a.num * b.den < b.num * a.den

protected def le (a b : PyFloat) : Prop := a.num * b.den ≤ b.num * a.den

instance : LT PyFloat := ⟨PyFloat.lt⟩
instance : LE PyFloat := ⟨PyFloat.le⟩

instance (a b : PyFloat) : Decidable (a < b) :=
  inferInstanceAs (Decidable (a.num * b.den < b.num * a.den))

instance (a b : PyFloat) : Decidable (a ≤ b) :=
  inferInstanceAs (Decidable (a.num * b.den ≤ b.num * a.den))

/-- Python `int(x)`: truncation toward zero. -/
def trunc (a : PyFloat) : Int := a.num.tdiv a.den

/-- Python `math.floor` / `//`-style floor (used for `round`). -/
def floorI (a : PyFloat) : Int := a.num.fdiv a.den

/-- Python `min(a, b)` (returns `b` exactly when `b < a`). -/
def pymin (a b : PyFloat) : PyFloat := if b < a then b else a

/-- Python `round(x, 2)` on exact rationals: nearest multiple of 1/100,
ties to even. -/
def round2 (x : PyFloat) : PyFloat :=
  let y := x * (100 : PyFloat)
  let f := floorI y
  let r := y - ofInt f
  let n :=
    if r < mkQ 1 2 then f
    else if mkQ 1 2 < r then f + 1
    else if f % 2 = 0 then f else f + 1
  mkQ n 100

end PyFloat

/-- ASCII lower-casing of one character (Python `str.lower`; the modelled
inputs are ASCII). -/
def toLowerChar (c : Char) : Char :=
  if 65 ≤ c.toNat ∧ c.toNat ≤ 90 then Char.ofNat (c.toNat + 32) else c

/-- Python `str.lower()`. -/
def lowerStr (s : List Char) : List Char := s.map toLowerChar

/-- Python `str.strip()` whitespace set (the common ASCII whitespace). -/
def isPySpace (c : Char) : Bool :=
  c == ' ' || c == '\t' || c == '\n' || c == '\x0d' || c == '\x0b' || c == '\x0c'

/-- Python `str.strip()`. -/
def pyStrip (s : List Char) : List Char :=
  ((s.dropWhile isPySpace).reverse.dropWhile isPySpace).reverse

/-- Python `str.replace(c, "")`: remove every occurrence of one character. -/
def remChar (c : Char) (s : List Char) : List Char := s.filter (fun a => a != c)

/-- Prefix test on character lists. -/
def isPrefixChars : List Char → List Char → Bool
  | [], _ => true
  | _ :: _, [] => false
  | a :: as, b :: bs => a == b && isPrefixChars as bs

/-- Python `needle in hay` on strings: substring containment. -/
def containsSub (needle : List Char) : List Char → Bool
  | [] => isPrefixChars needle []
  | c :: cs => isPrefixChars needle (c :: cs) || containsSub needle cs

/-- Decimal digits of a natural number (auxiliary, fuel-driven). -/
def natToCharsAux : Nat → Nat → List Char
  | 0, _ => []
  | fuel + 1, n =>
    if n < 10 then [Char.ofNat (48 + n)]
    else natToCharsAux fuel (n / 10) ++ [Char.ofNat (48 + n % 10)]

/-- Decimal rendering of a natural number (Python `str(n)` for `n ≥ 0`). -/
def natToChars (n : Nat) : List Char := natToCharsAux (n + 1) n

/-- Decimal rendering of an integer (Python `str(n)`). -/
def intToChars (n : Int) : List Char :=
  if n < 0 then '-' :: natToChars n.natAbs else natToChars n.natAbs

/-- Numeric value of a digit string (most significant digit first). -/
def digitsVal (s : List Char) : Nat :=
  s.foldl (fun v c => v * 10 + (c.toNat - 48)) 0

/-- Integer power of ten. -/
def pow10 (n : Nat) : Int := (10 : Int) ^ n

/-- ASCII digit test. -/
def isDigitChar (c : Char) : Bool := 48 ≤ c.toNat && c.toNat ≤ 57

/-- Optional exponent tail of a float literal: `"" | [eE][+-]?digits`.
Applied to the already-parsed mantissa. -/
def expPart (mant : PyFloat) (r : List Char) : Option PyFloat :=
  match r with
  | [] => some mant
  | c :: r2 =>
    if c == 'e' || c == 'E' then
      let (esgn, r3) : Int × List Char :=
        match r2 with
        | '+' :: t => (1, t)
        | '-' :: t => (-1, t)
        | t => (1, t)
      let (ed, r4) := r3.span isDigitChar
      if ed.isEmpty || !r4.isEmpty then none
      else if esgn = 1 then some (mant * ⟨pow10 (digitsVal ed), 1, Int.zero_lt_one⟩)
      else some (mant * ⟨1, pow10 (digitsVal ed), by unfold pow10; positivity⟩)
    else none

/-- Optional leading sign of a float literal. -/
def signSplit (s : List Char) : Int × List Char :=
  match s with
  | '+' :: r => (1, r)
  | '-' :: r => (-1, r)
  | r => (1, r)

/-- Python `float(s)` on decimal literals: optional surrounding whitespace,
optional sign, `digits [. digits] | . digits`, optional exponent.  `none`
models `ValueError`.  Unmodelled accepted forms: underscored literals and
`inf`/`nan` (in every use below those would raise at the following
`int(...)` anyway, so `none` matches the observable exception).  Also
unmodelled: CPython returns `inf` for finite numerals of 309+ digits (so a
following `int(...)` raises `OverflowError`) and rounds every result to 53
bits, while this parser is exact — the theorems below therefore restrict
their quantifiers to inputs of at most 308 characters, resp. to digit
prefixes whose scaled value stays within 2⁵³, where the two semantics
coincide. -/
def pyFloatParse (s0 : List Char) : Option PyFloat :=
  let s := pyStrip s0
  let (sgn, s1) := signSplit s
  let (ip, r1) := s1.span isDigitChar
  match r1 with
  | '.' :: r2 =>
    let (fp, r3) := r2.span isDigitChar
    if ip.isEmpty && fp.isEmpty then none
    else
      expPart ⟨sgn * ((digitsVal ip : Int) * pow10 fp.length + (digitsVal fp : Int)),
               pow10 fp.length, by unfold pow10; positivity⟩ r3
  | r =>
    if ip.isEmpty then none
    else expPart ⟨sgn * (digitsVal ip : Int), 1, Int.zero_lt_one⟩ r

/-- First match of the regex `\d+\.?\d*` starting at a digit: maximal digit
run, optional dot, maximal digit run. -/
def matchNum (s : List Char) : List Char :=
  let (ip, r) := s.span isDigitChar
  match r with
  | d :: r2 => if d == '.' then ip ++ '.' :: r2.takeWhile isDigitChar else ip
  | [] => ip

/-- `re.findall(r"\d+\.?\d*", text)`, first match only (all the code uses is
`numbers[0]`). -/
def findNum : List Char → Option (List Char)
  | [] => none
  | c :: cs => if isDigitChar c then some (matchNum (c :: cs)) else findNum cs

/-- `parse_count` from `app/apis/social_scraper/__init__.py` (lines 61-83):
normalizes strings like `"1.5M"`, `"10K"`, `"1,234"` to integers.  An
`Except.error` models a raised exception (`float(...)` on an unparseable
residue). -/
def parse_count (s : List Char) : Except Unit (Option Int) :=
  if s.isEmpty then .ok none
  else
    let t := remChar ',' (lowerStr (pyStrip s))
    if t.contains 'k' then
      match pyFloatParse (remChar 'k' t) with
      | some q => .ok (some (PyFloat.trunc (q * PyFloat.ofInt 1000)))
      | none => .error ()
    else if t.contains 'm' then
      match pyFloatParse (remChar 'm' t) with
      | some q => .ok (some (PyFloat.trunc (q * PyFloat.ofInt 1000000)))
      | none => .error ()
    else if t.contains 'b' then
      match pyFloatParse (remChar 'b' t) with
      | some q => .ok (some (PyFloat.trunc (q * PyFloat.ofInt 1000000000)))
      | none => .error ()
    else
      match findNum t with
      | some ds =>
        match pyFloatParse ds with
        | some q => .ok (some q.trunc)
        | none => .error ()
      | none => .ok none

/-- Parsed JSON values (vendor payloads).  JSON numbers in the modelled
payloads are integers, so numbers carry `Int`. -/
inductive Json where
  | null
  | bool (b : Bool)
  | int (n : Int)
  | str (s : List Char)
  | arr (l : List Json)
  | obj (o : List (List Char × Json))

/-- Lookup in a JSON object (Python `dict` access; keys are unique). -/
def dictGet : List (List Char × Json) → List Char → Option Json
  | [], _ => none
  | (k2, v) :: t, k => if k2 == k then some v else dictGet t k

/-- Python `dict.get(k, d)` on a JSON value; a non-object receiver (which
would raise `AttributeError` in Python and is never produced by the vendor
dataset) yields the default. -/
def jsonGetD (j : Json) (k : List Char) (d : Json) : Json :=
  match j with
  | .obj o => (dictGet o k).getD d
  | _ => d

/-- Python truthiness of a JSON value (`if not text: ...`). -/
def pyTruthy : Json → Bool
  | .null => false
  | .bool b => b
  | .int n => n != 0
  | .str s => !s.isEmpty
  | .arr l => !l.isEmpty
  | .obj o => !o.isEmpty

/-- The ASCII apostrophe (used in source-code message strings). -/
def aposChar : Char := Char.ofNat 39

/-- Comma-space join (Python `", ".join(...)` and repr separators). -/
def joinCommaChars (l : List (List Char)) : List Char :=
  List.intercalate ", ".data l

mutual

/-- Python `repr` of a JSON-shaped value (used by `str` on lists/dicts).
String escaping inside repr is not modelled (no modelled payload needs it). -/
def pyReprOf : Json → List Char
  | .null => "None".data
  | .bool true => "True".data
  | .bool false => "False".data
  | .int n => intToChars n
  | .str s => aposChar :: (s ++ [aposChar])
  | .arr l => '[' :: (joinCommaChars (pyReprList l) ++ [']'])
  | .obj o => '\x7b' :: (joinCommaChars (pyReprPairs o) ++ ['\x7d'])

def pyReprList : List Json → List (List Char)
  | [] => []
  | j :: t => pyReprOf j :: pyReprList t

def pyReprPairs : List (List Char × Json) → List (List Char)
  | [] => []
  | (k, v) :: t => (aposChar :: (k ++ [aposChar]) ++ ": ".data ++ pyReprOf v) :: pyReprPairs t

end

/-- Python `str(value)` for the values `parse_count` can receive. -/
def pyStrOf : Json → List Char
  | .null => "None".data
  | .bool true => "True".data
  | .bool false => "False".data
  | .int n => intToChars n
  | .str s => s
  | .arr l => pyReprOf (.arr l)
  | .obj o => pyReprOf (.obj o)

/-- `parse_count` from `app/apis/apify_integration/__init__.py` (lines
85-107): identical to the `social_scraper` copy except that the input may be
any value and is passed through `str(...)` after the truthiness test. -/
def parse_count_any (v : Json) : Except Unit (Option Int) :=
  if pyTruthy v = false then .ok none
  else
    let t := remChar ',' (lowerStr (pyStrip (pyStrOf v)))
    if t.contains 'k' then
      match pyFloatParse (remChar 'k' t) with
      | some q => .ok (some (PyFloat.trunc (q * PyFloat.ofInt 1000)))
      | none => .error ()
    else if t.contains 'm' then
      match pyFloatParse (remChar 'm' t) with
      | some q => .ok (some (PyFloat.trunc (q * PyFloat.ofInt 1000000)))
      | none => .error ()
    else if t.contains 'b' then
      match pyFloatParse (remChar 'b' t) with
      | some q => .ok (some (PyFloat.trunc (q * PyFloat.ofInt 1000000000)))
      | none => .error ()
    else
      match findNum t with
      | some ds =>
        match pyFloatParse ds with
        | some q => .ok (some q.trunc)
        | none => .error ()
      | none => .ok none

/-- `SocialPlatform` from `app/apis/models/__init__.py`. -/
inductive SocialPlatform where
  | INSTAGRAM
  | TWITTER
  | FACEBOOK
  | TIKTOK
  | YOUTUBE
  | LINKEDIN
deriving DecidableEq

/-- The string value of each `SocialPlatform` member. -/
def SocialPlatform.value : SocialPlatform → List Char
  | .INSTAGRAM => "instagram".data
  | .TWITTER => "twitter".data
  | .FACEBOOK => "facebook".data
  | .TIKTOK => "tiktok".data
  | .YOUTUBE => "youtube".data
  | .LINKEDIN => "linkedin".data

/-- `detect_platform_from_url` from `app/apis/apify_integration/__init__.py`
(lines 110-126): substring matching on the lower-cased URL, first match in
source order wins. -/
def detect_platform_from_url (url : List Char) : Option SocialPlatform :=
  let u := lowerStr url
  if containsSub "instagram.com".data u then some .INSTAGRAM
  else if containsSub "twitter.com".data u || containsSub "x.com".data u then some .TWITTER
  else if containsSub "facebook.com".data u || containsSub "fb.com".data u then some .FACEBOOK
  else if containsSub "tiktok.com".data u then some .TIKTOK
  else if containsSub "youtube.com".data u || containsSub "youtu.be".data u then some .YOUTUBE
  else if containsSub "linkedin.com".data u then some .LINKEDIN
  else none

/-- The canonical record built by `process_apify_data`
(`app/apis/apify_integration/__init__.py` lines 158-219).  The initial dict
stores literal `0` for `followers`/`following`/`posts` (here `some 0`,
distinct from the `none` that `parse_count` can produce) and `None` for
`daily_stats`/`content_performance`; `display_name`/`bio`/`profile_image`
are only added by the per-platform branches (absent = `none`). -/
structure ProfileRecord where
  platform : List Char
  username : Json
  profile_url : Json
  followers : Option Int
  following : Option Int
  posts : Option Int
  scrape_date : Int
  daily_stats : Option (List Json)
  content_performance : Option (List Json)
  display_name : Option Json
  bio : Option Json
  profile_image : Option Json

/-- `process_apify_data` (`app/apis/apify_integration/__init__.py` lines
158-219): platform-specific field extraction into the canonical record.
`now` stands for `datetime.now()`; an `Except.error` is a `ValueError`
raised by `parse_count`. -/
def process_apify_data (raw : Json) (platform : SocialPlatform) (now : Int) :
    Except Unit ProfileRecord := do
  let base : ProfileRecord :=
    { platform := platform.value
      username := .str []
      profile_url := .str []
      followers := some 0
      following := some 0
      posts := some 0
      scrape_date := now
      daily_stats := none
      content_performance := none
      display_name := none
      bio := none
      profile_image := none }
  match platform with
  | .INSTAGRAM => do
    let f ← parse_count_any (jsonGetD raw "followersCount".data (.int 0))
    let fo ← parse_count_any (jsonGetD raw "followsCount".data (.int 0))
    let p ← parse_count_any (jsonGetD raw "postsCount".data (.int 0))
    return { base with
      username := jsonGetD raw "username".data (.str [])
      profile_url := jsonGetD raw "url".data (.str [])
      followers := f
      following := fo
      posts := p
      display_name := some (jsonGetD raw "fullName".data (.str []))
      bio := some (jsonGetD raw "biography".data (.str []))
      profile_image := some (jsonGetD raw "profilePicUrl".data (.str [])) }
  | .TWITTER => do
    let f ← parse_count_any (jsonGetD raw "followersCount".data (.int 0))
    let fo ← parse_count_any (jsonGetD raw "friendsCount".data (.int 0))
    let p ← parse_count_any (jsonGetD raw "statusesCount".data (.int 0))
    return { base with
      username := jsonGetD raw "username".data (.str [])
      profile_url := jsonGetD raw "url".data (.str [])
      followers := f
      following := fo
      posts := p
      display_name := some (jsonGetD raw "displayName".data (.str []))
      bio := some (jsonGetD raw "description".data (.str []))
      profile_image := some (jsonGetD raw "profileImageUrl".data (.str [])) }
  | .FACEBOOK => do
    let f ← parse_count_any (jsonGetD raw "followers".data (.int 0))
    return { base with
      username := jsonGetD raw "username".data (.str [])
      profile_url := jsonGetD raw "url".data (.str [])
      followers := f
      display_name := some (jsonGetD raw "name".data (.str []))
      bio := some (jsonGetD raw "about".data (.str []))
      profile_image := some (jsonGetD raw "profilePic".data (.str [])) }
  | .TIKTOK => do
    let f ← parse_count_any (jsonGetD raw "followerCount".data (.int 0))
    let fo ← parse_count_any (jsonGetD raw "followingCount".data (.int 0))
    let p ← parse_count_any (jsonGetD raw "videoCount".data (.int 0))
    return { base with
      username := jsonGetD raw "username".data (.str [])
      profile_url := jsonGetD raw "url".data (.str [])
      followers := f
      following := fo
      posts := p
      display_name := some (jsonGetD raw "nickname".data (.str []))
      bio := some (jsonGetD raw "signature".data (.str []))
      profile_image := some (jsonGetD raw "avatarMedium".data (.str [])) }
  | .YOUTUBE => do
    let f ← parse_count_any (jsonGetD raw "subscriberCount".data (.int 0))
    let p ← parse_count_any (jsonGetD raw "videoCount".data (.int 0))
    return { base with
      username := jsonGetD raw "title".data (.str [])
      profile_url := jsonGetD raw "url".data (.str [])
      followers := f
      posts := p
      display_name := some (jsonGetD raw "title".data (.str []))
      bio := some (jsonGetD raw "description".data (.str []))
      profile_image := some (jsonGetD raw "thumbnailUrl".data (.str [])) }
  | .LINKEDIN => return base

/-- `process_json_response` (`app/apis/apify_integration/__init__.py` lines
222-259).  The input is the already-parsed JSON body (`none` = the body did
not parse, i.e. `json.JSONDecodeError`); the error strings are the raised
exception messages. -/
def process_json_response (body : Option Json) (platform : SocialPlatform) (now : Int) :
    Except (List Char) ProfileRecord :=
  match body with
  | none => .error "Invalid JSON response from Apify".data
  | some data =>
    match data with
    | .null => .error "Apify returned null response".data
    | d =>
      let items : List Json :=
        match d with
        | .arr l => l
        | .obj o =>
          match dictGet o "data".data with
          | some (.obj od) => [.obj od]
          | some (.arr al) => al
          | some _ => []
          | none =>
            match dictGet o "items".data with
            | some (.arr il) => il
            | _ => [.obj o]
        | _ => []
      match items with
      | [] => .error "No data items found in Apify response".data
      | raw :: _ =>
        match process_apify_data raw platform now with
        | .ok r => .ok r
        | .error _ => .error "ValueError".data

/-- One entry of the generated `daily_stats` series.  Dates are day numbers
(`today - i` for the entry generated on iteration `i`); `strftime` only
renders them. -/
structure DailyStat where
  date : Int
  followers : Int
  engagement : PyFloat
  views : Option Int

/-- One entry of the generated `content_performance` list. -/
structure ContentItem where
  id : List Char
  type : List Char
  title : List Char
  date : Int
  likes : Int
  comments : Int
  shares : Int
  views : Option Int

/-- The random draws consumed by `generate_time_series`, one oracle field
per `random.*` call site (the index is the loop variable `i`). -/
structure TimeSeriesRng where
  growthRate : PyFloat
  baseEngagement : PyFloat
  jitter : Nat → PyFloat
  viewCoin : Nat → Bool
  viewMult : Nat → PyFloat

/-- Follower count at loop iteration `i` of `generate_time_series`: the
running `current_followers`, starting from the input and applying
`current_followers = int(current_followers / (1 + daily_growth_rate))`
after each emitted entry. -/
def followersAt (rng : TimeSeriesRng) (followers : Int) : Nat → Int
  | 0 => followers
  | i + 1 =>
    PyFloat.trunc (PyFloat.ofInt (followersAt rng followers i) / (1 + rng.growthRate))

/-- The entry emitted at loop iteration `i` of `generate_time_series`. -/
def tsEntry (rng : TimeSeriesRng) (today : Int) (followers : Int) (i : Nat) : DailyStat :=
  let cur := followersAt rng followers i
  let engagement_rate := rng.baseEngagement * (1 + rng.jitter i)
  { date := today - (i : Int)
    followers := cur
    engagement := PyFloat.round2 (engagement_rate * 100)
    views :=
      if rng.viewCoin i then some (PyFloat.trunc (PyFloat.ofInt cur * rng.viewMult i))
      else none }

/-- `generate_time_series` from `app/apis/social_scraper/__init__.py` (lines
86-121).  The source loop runs `i = 0..29` and prepends each entry
(`result.insert(0, entry)`), so the final list is the entries for
`i = 29, 28, …, 0` — here written as a map over `(List.range 30).reverse`,
with the running follower count recovered by `followersAt`. -/
def generate_time_series (rng : TimeSeriesRng) (today : Int) (followers : Int) :
    List DailyStat :=
  (List.range 30).reverse.map (tsEntry rng today followers)

/-- First-present lookup in a literal association table (Python
`dict.get(k, d)` on the source's literal tables). -/
def tableGetD (t : List (List Char × α)) (k : List Char) (d : α) : α :=
  match t with
  | [] => d
  | (k2, v) :: rest => if k2 == k then v else tableGetD rest k d

/-- The `content_types` table of `generate_content_performance`. -/
def content_types : List (List Char × List (List Char)) :=
  [ ("instagram".data, ["post".data, "reel".data, "story".data])
  , ("twitter".data, ["post".data])
  , ("facebook".data, ["post".data, "video".data])
  , ("tiktok".data, ["video".data])
  , ("youtube".data, ["video".data])
  , ("linkedin".data, ["post".data, "article".data]) ]

/-- The `title_templates` table of `generate_content_performance`. -/
def title_templates : List (List Char × List (List Char)) :=
  [ ("post".data, ["New Update".data, "Big Announcement".data, "Behind the Scenes".data])
  , ("video".data, ["Tutorial: How To".data, "Vlog".data, "Product Review".data])
  , ("story".data, ["Daily Update".data, "Quick Tip".data, "Special Offer".data])
  , ("reel".data, ["Trending Challenge".data, "Quick Tutorial".data, "Fun Moment".data])
  , ("article".data, ["Industry Analysis".data, "Expert Guide".data, "Case Study".data]) ]

/-- The `type_factors` table of `generate_content_performance`. -/
def type_factors : List (List Char × PyFloat) :=
  [ ("post".data, 1)
  , ("video".data, PyFloat.mkQ 12 10)
  , ("story".data, PyFloat.mkQ 8 10)
  , ("reel".data, PyFloat.mkQ 15 10)
  , ("article".data, PyFloat.mkQ 9 10) ]

/-- `random.choice(l)` for a non-empty list, with the uniform draw
abstracted into an arbitrary oracle index (reduced modulo the length, so the
result is always an element of `l`, as in Python). -/
def pyChoice (l : List (List Char)) (k : Nat) : List Char :=
  l.getD (k % l.length) []

/-- The random draws consumed by `generate_content_performance`, one oracle
field per `random.*` call site (the index is the loop variable `i`). -/
structure ContentRng where
  typeChoice : Nat → Nat
  dayOff : Nat → Nat
  engUniform : Nat → PyFloat
  titleChoice : Nat → Nat
  likesMul : Nat → PyFloat
  commentsMul : Nat → PyFloat
  sharesMul : Nat → PyFloat
  viewsMul : Nat → PyFloat

/-- The item produced at loop iteration `i` of
`generate_content_performance`.  `nowEpoch` is `int(time.time())` (content
ids), `today` the current day number. -/
def cpItem (rng : ContentRng) (nowEpoch today : Int) (followers : Int)
    (platform : List Char) (i : Nat) : ContentItem :=
  let types := tableGetD content_types (lowerStr platform) ["post".data]
  let content_type := pyChoice types (rng.typeChoice i)
  let date := today - ((3 * i + rng.dayOff i : Nat) : Int)
  let recency_factor := (1 : PyFloat) - (PyFloat.ofInt i / 12)
  let type_factor := tableGetD type_factors content_type 1
  let base_engagement := PyFloat.ofInt followers * rng.engUniform i * recency_factor * type_factor
  let templates := tableGetD title_templates content_type ["New Content".data]
  { id := "content-".data ++ intToChars nowEpoch ++ '-' :: natToChars i
    type := content_type
    title := pyChoice templates (rng.titleChoice i)
    date := date
    likes := PyFloat.trunc (base_engagement * rng.likesMul i)
    comments := PyFloat.trunc (base_engagement * rng.commentsMul i)
    shares := PyFloat.trunc (base_engagement * rng.sharesMul i)
    views :=
      if content_type == "video".data || content_type == "reel".data
          || lowerStr platform == "youtube".data || lowerStr platform == "tiktok".data then
        some (PyFloat.trunc (base_engagement * rng.viewsMul i))
      else none }

/-- `generate_content_performance` from `app/apis/social_scraper/__init__.py`
(lines 124-190): ten items appended in loop order `i = 0..9` (`i = 0` is
the most recent; dates go backwards by `i*3 + randint(0, 2)` days). -/
def generate_content_performance (rng : ContentRng) (nowEpoch today : Int)
    (followers : Int) (platform : List Char) : List ContentItem :=
  (List.range 10).map (cpItem rng nowEpoch today followers platform)

/-- `ScrapedData` from `app/apis/apify_scraper/__init__.py` (equal to the
`social_scraper` copy): every field is `Optional` with default `None`. -/
structure ScrapedData where
  followers : Option Int := none
  following : Option Int := none
  posts : Option Int := none
  engagement : Option PyFloat := none
  growth : Option PyFloat := none
  views : Option Int := none
  likes : Option Int := none
  comments : Option Int := none
  shares : Option Int := none
  dailyStats : Option (List DailyStat) := none
  contentPerformance : Option (List ContentItem) := none

/-- `ScrapeResponse` from the same module. -/
structure ScrapeResponse where
  success : Bool
  data : Option ScrapedData := none
  error : Option (List Char) := none

/-- The random draws consumed by `generate_fallback_data` (the seeded
`random.*` calls; the per-platform arms of the source differ only in the
numeric ranges passed to `randint`/`uniform`, which live here). -/
structure FallbackRng where
  baseDraw : Int
  followRatio : PyFloat
  postsDraw : Int
  engagementDraw : PyFloat
  growthDraw : PyFloat
  commentsMul : PyFloat
  sharesMul : PyFloat

/-- The ambient collaborators of one request: the three random oracles, the
current day number (`datetime.now()`), `int(time.time())` for content ids,
and `time.time()` for the rate limiters. -/
structure Env where
  ts : TimeSeriesRng
  cp : ContentRng
  fb : FallbackRng
  today : Int
  nowEpoch : Int
  now : PyFloat

/-- `generate_fallback_data` from `app/apis/apify_scraper/__init__.py`
(lines 689-787): synthesizes a full success response from the seeded
random draws.  `following` is `None` exactly for facebook/youtube;
`views` is set exactly for youtube/tiktok.  Its unused `profile_url`
parameter is dropped; the `except` arm is unreachable in the model (the
body raises nothing). -/
def generate_fallback_data (env : Env) (platform username : List Char) : ScrapeResponse :=
  let followers := env.fb.baseDraw + (username.length : Int) * 100
  let following : Option Int :=
    if platform == "facebook".data || platform == "youtube".data then none
    else some (PyFloat.trunc (PyFloat.ofInt followers * env.fb.followRatio))
  let engagement := env.fb.engagementDraw
  let likes_per_post := PyFloat.trunc (PyFloat.ofInt followers * engagement / 100)
  { success := true
    data := some
      { followers := some followers
        following := following
        posts := some env.fb.postsDraw
        engagement := some engagement
        growth := some env.fb.growthDraw
        likes := some likes_per_post
        comments := some (PyFloat.trunc (PyFloat.ofInt likes_per_post * env.fb.commentsMul))
        shares := some (PyFloat.trunc (PyFloat.ofInt likes_per_post * env.fb.sharesMul))
        views :=
          if platform == "youtube".data || platform == "tiktok".data then
            some (followers * 5)
          else none
        dailyStats := some (generate_time_series env.ts env.today followers)
        contentPerformance :=
          some (generate_content_performance env.cp env.nowEpoch env.today followers platform) } }

/-- One step of a chained `a or b or … or 0` over dict lookups: the first
key whose value is a present, truthy (non-zero) number wins, else 0.  The
modelled payload metric fields are JSON numbers. -/
def firstTruthyNumPairs : List (Json × List Char) → Int
  | [] => 0
  | (j, k) :: t =>
    match jsonGetD j k .null with
    | .int n => if n ≠ 0 then n else firstTruthyNumPairs t
    | _ => firstTruthyNumPairs t

/-- Chained `or` over several keys of one dict. -/
def firstTruthyNum (j : Json) (keys : List (List Char)) : Int :=
  firstTruthyNumPairs (keys.map (fun k => (j, k)))

/-- `dict.get(k, d)` for an integer field (the modelled payload metric
fields are JSON numbers). -/
def jsonGetIntD (j : Json) (k : List Char) (d : Int) : Int :=
  match jsonGetD j k (.int d) with
  | .int n => n
  | _ => d

/-- `dict.get(k, d)` for a numeric field with a float default. -/
def jsonGetQD (j : Json) (k : List Char) (d : PyFloat) : PyFloat :=
  match jsonGetD j k .null with
  | .int n => PyFloat.ofInt n
  | _ => d

/-- `"userInfo" in result` / `"user" in result` style key-membership test. -/
def jsonHasKey (j : Json) (k : List Char) : Bool :=
  match j with
  | .obj o => (dictGet o k).isSome
  | _ => false

/-- The instagram arm of the results processing
(`app/apis/apify_scraper/__init__.py` lines 268-306), applied to
`results[0]`. -/
def processInstagramResult (env : Env) (profile : Json) : ScrapeResponse :=
  let followers := jsonGetIntD profile "followersCount".data 0
  let following := jsonGetIntD profile "followsCount".data 0
  let posts := jsonGetIntD profile "postsCount".data 0
  let engagement := jsonGetQD profile "engagement".data (PyFloat.mkQ 25 10)
  let growth := jsonGetQD profile "growthRate".data (PyFloat.mkQ 8 10)
  let daily_stats : Option (List DailyStat) :=
    if 0 < followers then some (generate_time_series env.ts env.today followers) else none
  let content_performance : Option (List ContentItem) :=
    if 0 < followers then
      some (generate_content_performance env.cp env.nowEpoch env.today followers "instagram".data)
    else none
  { success := true
    data := some
      { followers := some followers
        following := some following
        posts := some posts
        engagement := some engagement
        growth := some growth
        likes := some (if 0 < followers then
          PyFloat.trunc (PyFloat.ofInt followers * engagement / 100) else 0)
        comments := some (if 0 < followers then
          PyFloat.trunc (PyFloat.ofInt followers * engagement / 100 * PyFloat.mkQ 2 10) else 0)
        shares := some (if 0 < followers then
          PyFloat.trunc (PyFloat.ofInt followers * engagement / 100 * PyFloat.mkQ 1 10) else 0)
        dailyStats := daily_stats
        contentPerformance := content_performance } }

/-- The facebook arm of the results processing (lines 478-519), applied to
`results[0]`. -/
def processFacebookResult (env : Env) (profile : Json) : ScrapeResponse :=
  let followers := firstTruthyNum profile
    ["likesCount".data, "likes_count".data, "likes".data,
     "followersCount".data, "followers_count".data, "followers".data]
  let engagement : PyFloat := 2
  let daily_stats : Option (List DailyStat) :=
    if 0 < followers then some (generate_time_series env.ts env.today followers) else none
  let content_performance : Option (List ContentItem) :=
    if 0 < followers then
      some (generate_content_performance env.cp env.nowEpoch env.today followers "facebook".data)
    else none
  { success := true
    data := some
      { followers := some followers
        posts := some (jsonGetIntD profile "postsCount".data 0)
        engagement := some engagement
        growth := some (PyFloat.mkQ 6 10)
        likes := some (if 0 < followers then
          PyFloat.trunc (PyFloat.ofInt followers * engagement / 100) else 0)
        comments := some (if 0 < followers then
          PyFloat.trunc (PyFloat.ofInt followers * engagement / 100 * PyFloat.mkQ 2 10) else 0)
        shares := some (if 0 < followers then
          PyFloat.trunc (PyFloat.ofInt followers * engagement / 100 * PyFloat.mkQ 15 100) else 0)
        dailyStats := daily_stats
        contentPerformance := content_performance } }

/-- The youtube arm of the results processing (lines 526-579), applied to
`results[0]`. -/
def processYoutubeResult (env : Env) (profile : Json) : ScrapeResponse :=
  let subscribers := firstTruthyNum profile
    ["subscriberCount".data, "subscriber_count".data, "subscribers".data, "subscribersCount".data]
  let views := firstTruthyNum profile
    ["viewCount".data, "view_count".data, "views".data, "viewsCount".data]
  let videos := firstTruthyNum profile
    ["videoCount".data, "video_count".data, "videos".data, "videosCount".data]
  let daily_stats : Option (List DailyStat) :=
    if 0 < subscribers then some (generate_time_series env.ts env.today subscribers) else none
  let content_performance : Option (List ContentItem) :=
    if 0 < subscribers then
      some (generate_content_performance env.cp env.nowEpoch env.today subscribers "youtube".data)
    else none
  { success := true
    data := some
      { followers := some subscribers
        posts := some videos
        views := some views
        engagement := some 4
        growth := some (PyFloat.mkQ 7 10)
        likes := some (if 0 < subscribers then
          PyFloat.trunc (PyFloat.ofInt subscribers * PyFloat.mkQ 5 100) else 0)
        comments := some (if 0 < subscribers then
          PyFloat.trunc (PyFloat.ofInt subscribers * PyFloat.mkQ 1 100) else 0)
        shares := some (if 0 < subscribers then
          PyFloat.trunc (PyFloat.ofInt subscribers * PyFloat.mkQ 2 100) else 0)
        dailyStats := daily_stats
        contentPerformance := content_performance } }

/-- The search for a result carrying user info in the tiktok arm (lines
590-593). -/
def findTikTokUser : List Json → Option Json
  | [] => none
  | r :: t =>
    if jsonHasKey r "userInfo".data || jsonHasKey r "user".data then some r
    else findTikTokUser t

/-- The tiktok arm of the results processing (lines 586-677).  (Dead code
at runtime: the handler short-circuits tiktok to fallback data before any
vendor call; modelled for completeness.) -/
def processTikTokResult (env : Env) (user_data : Json) : ScrapeResponse :=
  let profile0 := jsonGetD (jsonGetD user_data "userInfo".data (.obj [])) "user".data (.obj [])
  let profile := if pyTruthy profile0 then profile0 else jsonGetD user_data "user".data (.obj [])
  let stats0 := jsonGetD (jsonGetD user_data "userInfo".data (.obj [])) "stats".data (.obj [])
  let stats :=
    if pyTruthy stats0 = false && jsonHasKey profile "stats".data then
      jsonGetD profile "stats".data (.obj [])
    else stats0
  let followers := firstTruthyNumPairs
    [(stats, "followerCount".data), (stats, "followerCount".data),
     (profile, "followerCount".data), (profile, "followers".data),
     (profile, "followersCount".data), (profile, "followers_count".data),
     (profile, "fans".data)]
  let following := firstTruthyNumPairs
    [(stats, "followingCount".data), (profile, "followingCount".data),
     (profile, "following".data), (profile, "following_count".data)]
  let likes := firstTruthyNumPairs
    [(stats, "heartCount".data), (stats, "likeCount".data),
     (profile, "likeCount".data), (profile, "likes".data),
     (profile, "like_count".data), (profile, "heartCount".data), (profile, "hearts".data)]
  let videos := firstTruthyNumPairs
    [(stats, "videoCount".data), (profile, "videoCount".data),
     (profile, "videos".data), (profile, "video_count".data)]
  let daily_stats : Option (List DailyStat) :=
    if 0 < followers then some (generate_time_series env.ts env.today followers) else none
  let content_performance : Option (List ContentItem) :=
    if 0 < followers then
      some (generate_content_performance env.cp env.nowEpoch env.today followers "tiktok".data)
    else none
  { success := true
    data := some
      { followers := some followers
        following := some following
        posts := some videos
        engagement := some (PyFloat.mkQ 65 10)
        growth := some (PyFloat.mkQ 12 10)
        likes := some likes
        comments := some (if 0 < followers then
          PyFloat.trunc (PyFloat.ofInt followers * PyFloat.mkQ 4 100) else 0)
        shares := some (if 0 < followers then
          PyFloat.trunc (PyFloat.ofInt followers * PyFloat.mkQ 5 100) else 0)
        dailyStats := daily_stats
        contentPerformance := content_performance } }

/-- The supported platforms of `apify_scraper` (`PLATFORM_CONFIGS` keys, in
source/insertion order). -/
def supportedPlatforms : List (List Char) :=
  ["instagram".data, "twitter".data, "facebook".data, "youtube".data, "tiktok".data]

/-- The unsupported-platform error message of the handler (line 128). -/
def unsupportedMsg (platform : List Char) : List Char :=
  "Platform ".data ++ [aposChar] ++ platform ++ [aposChar]
    ++ " is not supported. Supported platforms: ".data
    ++ joinCommaChars supportedPlatforms

/-- The tight-window rate-limit error message of the handler (line 146). -/
def rateLimitMsg : List Char := "Rate limiting in effect. Please try again later.".data

/-- `MIN_SCRAPE_INTERVAL` of `apify_scraper` (30 s, per platform). -/
def MIN_SCRAPE_INTERVAL_apify : PyFloat := 30

/-- `MIN_SCRAPE_INTERVAL` of `social_scraper` (`60 * 10` s, per
platform+username). -/
def MIN_SCRAPE_INTERVAL_social : PyFloat := PyFloat.ofInt (60 * 10)

/-- Outcome of the vendor job lifecycle (`aiohttp` section of
`apify_scrape_social_profile`, lines 184-259), as observed by the handler:
which exit the start / poll / fetch sequence took.  `raised` is any
exception escaping the vendor section (caught by the outer `except`);
`pollCheckFailed`/`fetchFailed` carry the non-200 HTTP status of the
failing GET; `fetched` carries the run's terminal status string — which
the handler never inspects — and the dataset items (JSON objects). -/
inductive VendorPath where
  | raised (msg : List Char)
  | startFailed (status : Nat) (bodyHasRateLimit : Bool)
  | pollCheckFailed (status : Nat)
  | pollTimeout
  | fetchFailed (terminalStatus : List Char) (status : Nat)
  | fetched (terminalStatus : List Char) (results : List Json)

/-- The vendor section of `apify_scrape_social_profile` (lines 184-686):
start the run, poll, fetch, and process the dataset per platform.  The
twitter user-info probing and metric extraction (lines 312-471) is the one
region abstracted as the oracle `twitterProcess` — no claim depends on its
output, and it is only reached on a non-empty twitter result set. -/
def runVendorJob (env : Env) (twitterProcess : List Json → ScrapeResponse)
    (platform username : List Char) (path : VendorPath) : ScrapeResponse :=
  match path with
  | .raised msg =>
    { success := false, error := some ("Error scraping social profile: ".data ++ msg) }
  | .startFailed status bodyHasRateLimit =>
    if status == 429 || bodyHasRateLimit then generate_fallback_data env platform username
    else { success := false,
           error := some ("Failed to start actor run: HTTP ".data ++ natToChars status) }
  | .pollCheckFailed status =>
    { success := false,
      error := some ("Failed to check run status: HTTP ".data ++ natToChars status) }
  | .pollTimeout =>
    { success := false, error := some "Timed out waiting for actor run to finish".data }
  | .fetchFailed _ status =>
    { success := false,
      error := some ("Failed to get dataset items: HTTP ".data ++ natToChars status) }
  | .fetched _ results =>
    if platform == "instagram".data then
      match results with
      | [] => generate_fallback_data env platform username
      | r :: _ => processInstagramResult env r
    else if platform == "twitter".data then
      match results with
      | [] => generate_fallback_data env platform username
      | _ => twitterProcess results
    else if platform == "facebook".data then
      match results with
      | [] => generate_fallback_data env platform username
      | r :: _ => processFacebookResult env r
    else if platform == "youtube".data then
      match results with
      | [] => generate_fallback_data env platform username
      | r :: _ => processYoutubeResult env r
    else if platform == "tiktok".data then
      match results with
      | [] => generate_fallback_data env platform username
      | _ =>
        match findTikTokUser results with
        | none => generate_fallback_data env platform username
        | some u => processTikTokResult env u
    else
      { success := false, error := none }

/-- What one call to the handler produced: the HTTP-level response, the
rate-limit ledger afterwards, whether any outbound vendor call was made,
and how long the request slept in the rate-limit wait branch. -/
structure HandlerResult where
  response : ScrapeResponse
  ledger : List Char → Option PyFloat
  networkCalled : Bool
  waited : PyFloat

/-- The rate-limiting block of `apify_scrape_social_profile` (lines
131-151), factored out: `none` is the tight-window rejection (last attempt
under 10 s ago); `some w` proceeds after sleeping `w` seconds
(`min(5, int(MIN_SCRAPE_INTERVAL - elapsed))` inside the 30 s window,
0 otherwise). -/
def rateCheck (ledger : List Char → Option PyFloat) (key : List Char)
    (now : PyFloat) : Option PyFloat :=
  match ledger key with
  | some t =>
    if now - t < MIN_SCRAPE_INTERVAL_apify then
      if now - t < (10 : PyFloat) then none
      else some (PyFloat.pymin 5
        (PyFloat.ofInt (PyFloat.trunc (MIN_SCRAPE_INTERVAL_apify - (now - t)))))
    else some 0
  | none => some 0

/-- `apify_scrape_social_profile` from `app/apis/apify_scraper/__init__.py`
(lines 113-686): platform check, per-platform rate limiting on the
`last_scrape_times` ledger (`rateCheck` above), the tiktok fallback
short-circuit, then the vendor job section (`runVendorJob`). -/
def apify_scrape_social_profile (env : Env) (twitterProcess : List Json → ScrapeResponse)
    (path : VendorPath) (ledger : List Char → Option PyFloat)
    (platform0 username : List Char) : HandlerResult :=
  let platform := lowerStr platform0
  if supportedPlatforms.contains platform = false then
    { response := { success := false, error := some (unsupportedMsg platform) }
      ledger := ledger, networkCalled := false, waited := 0 }
  else
    let key := "apify_".data ++ platform
    match rateCheck ledger key env.now with
    | none =>
      { response := { success := false, error := some rateLimitMsg }
        ledger := ledger, networkCalled := false, waited := 0 }
    | some waited =>
      let ledger2 : List Char → Option PyFloat :=
        fun k => if k == key then some env.now else ledger k
      if platform == "tiktok".data then
        { response := generate_fallback_data env platform username
          ledger := ledger2, networkCalled := false, waited := waited }
      else
        { response := runVendorJob env twitterProcess platform username path
          ledger := ledger2, networkCalled := true, waited := waited }

/-- Outcome of the `social_scraper` endpoint: either a raised
`HTTPException` (status, detail) or a returned `ScrapeResponse`. -/
inductive SocialOutcome where
  | httpError (status : Nat) (detail : List Char)
  | resp (r : ScrapeResponse)

/-- Result of one call to the `social_scraper` endpoint: the outcome, the
fine (platform+username) ledger afterwards, and — when the inner Apify
handler was invoked — its full result (carrying the coarse ledger). -/
structure SocialResult where
  outcome : SocialOutcome
  fineLedger : List Char → Option PyFloat
  apify : Option HandlerResult

/-- `scrape_social_profile` from `app/apis/social_scraper/__init__.py`
(lines 764-876): fine-grained rate limiting keyed on
`"{platform}:{username}"` (hard 429 inside the whole 10-minute window,
written before the platform is examined), then a direct call into
`apify_scrape_social_profile` with the lower-cased platform, whose result
is passed through (`success=False` results are returned as-is; a success
without data would raise in `data.dict()` and be converted by the inner
`except` into an error response). -/
def scrape_social_profile (env : Env) (twitterProcess : List Json → ScrapeResponse)
    (path : VendorPath) (fineLedger coarseLedger : List Char → Option PyFloat)
    (platform username : List Char) : SocialResult :=
  let key := platform ++ ':' :: username
  let proceed : Unit → SocialResult := fun _ =>
    let fine2 : List Char → Option PyFloat :=
      fun k => if k == key then some env.now else fineLedger k
    let hr := apify_scrape_social_profile env twitterProcess path coarseLedger
      (lowerStr platform) username
    let out : ScrapeResponse :=
      if hr.response.success then
        match hr.response.data with
        | some d => { success := true, data := some d }
        | none =>
          { success := false,
            error := some "Error calling apify_scrape_social_profile: AttributeError".data }
      else { success := false, error := hr.response.error }
    { outcome := .resp out, fineLedger := fine2, apify := some hr }
  match fineLedger key with
  | some t =>
    if env.now - t < MIN_SCRAPE_INTERVAL_social then
      let wait_time := PyFloat.trunc (MIN_SCRAPE_INTERVAL_social - (env.now - t))
      { outcome := .httpError 429
          ("Rate limit exceeded. Please try again in ".data ++ intToChars wait_time
            ++ " seconds.".data)
        fineLedger := fineLedger, apify := none }
    else proceed ()
  | none => proceed ()

/-! ## Concrete fixtures (for counterexamples and witnesses) -/

/-- The vendor payload of the end-to-end scenario:
`{"data":[{"followersCount": 12000, "followsCount": 300, "postsCount": 45}]}`. -/
def c2payload : Json :=
  .obj [("data".data, .arr [.obj [("followersCount".data, .int 12000),
    ("followsCount".data, .int 300), ("postsCount".data, .int 45)]])]

/-- A concrete time-series oracle (growth rate 0.001, in the source's
`uniform(0.0005, 0.003)` range; engagement 0.02, in `uniform(0.01, 0.05)`). -/
def wTs : TimeSeriesRng :=
  ⟨PyFloat.mkQ 1 1000, PyFloat.mkQ 2 100, fun _ => 0, fun _ => false, fun _ => 3⟩

/-- A concrete content-performance oracle (`randint(0,2)` draw 0, uniforms
at in-range values). -/
def wCp : ContentRng :=
  ⟨fun _ => 0, fun _ => 0, fun _ => PyFloat.mkQ 3 100, fun _ => 0,
   fun _ => 1, fun _ => PyFloat.mkQ 1 10, fun _ => PyFloat.mkQ 1 20, fun _ => 4⟩

/-- A concrete fallback oracle. -/
def wFb : FallbackRng :=
  ⟨5000, PyFloat.mkQ 1 2, 100, 2, PyFloat.mkQ 1 2, PyFloat.mkQ 1 10, PyFloat.mkQ 1 10⟩

/-- A concrete environment: day number 20000, `time.time() = 1000`. -/
def wEnv : Env := ⟨wTs, wCp, wFb, 20000, 1700000000, PyFloat.ofInt 1000⟩

/-- A concrete stand-in for the abstracted twitter results processing. -/
def wTp : List Json → ScrapeResponse := fun _ => ⟨true, none, none⟩

/-- The empty rate-limit ledger. -/
def emptyLedger : List Char → Option PyFloat := fun _ => none

/-- A ledger holding a single key. -/
def singleLedger (key : List Char) (t : PyFloat) : List Char → Option PyFloat :=
  fun k => if k == key then some t else none

/-! ## Helper lemmas -/

theorem char_ne_of_toNat_ne {c d : Char} (h : c.toNat ≠ d.toNat) : c ≠ d :=
  fun he => h (he ▸ rfl)

theorem isPrefixChars_self_append (n s : List Char) :
    isPrefixChars n (n ++ s) = true := by
  induction n with
  | nil => rfl
  | cons a as ih => simp [isPrefixChars, ih]

theorem containsSub_of_isPrefixChars {n h : List Char}
    (hp : isPrefixChars n h = true) : containsSub n h = true := by
  cases h with
  | nil => simpa [containsSub] using hp
  | cons c cs => simp [containsSub, hp]

theorem containsSub_cons {n t : List Char} (c : Char)
    (h : containsSub n t = true) : containsSub n (c :: t) = true := by
  simp [containsSub, h]

theorem containsSub_append (n pre suf : List Char) :
    containsSub n (pre ++ n ++ suf) = true := by
  induction pre with
  | nil => simpa using containsSub_of_isPrefixChars (isPrefixChars_self_append n suf)
  | cons c cs ih => simpa using containsSub_cons c (by simpa using ih)

theorem dropWhile_eq_self_of_all {p : Char → Bool} {l : List Char}
    (h : ∀ c ∈ l, p c = false) : l.dropWhile p = l := by
  cases l with
  | nil => rfl
  | cons c cs => simp [List.dropWhile, h c (by simp)]

theorem pyStrip_eq_self {l : List Char} (h : ∀ c ∈ l, isPySpace c = false) :
    pyStrip l = l := by
  unfold pyStrip
  rw [dropWhile_eq_self_of_all h, dropWhile_eq_self_of_all (by simpa using h)]
  simp

theorem isPySpace_false_of_digit {c : Char} (h : isDigitChar c = true) :
    isPySpace c = false := by
  unfold isDigitChar at h
  simp only [Bool.and_eq_true, decide_eq_true_eq] at h
  unfold isPySpace
  have hs : (c == ' ') = false :=
    beq_eq_false_iff_ne.mpr (char_ne_of_toNat_ne (by rw [show (' ' : Char).toNat = 32 from rfl]; omega))
  have h1 : (c == '\t') = false :=
    beq_eq_false_iff_ne.mpr (char_ne_of_toNat_ne (by rw [show ('\t' : Char).toNat = 9 from rfl]; omega))
  have h2 : (c == '\n') = false :=
    beq_eq_false_iff_ne.mpr (char_ne_of_toNat_ne (by rw [show ('\n' : Char).toNat = 10 from rfl]; omega))
  have h3 : (c == '\x0d') = false :=
    beq_eq_false_iff_ne.mpr (char_ne_of_toNat_ne (by rw [show ('\x0d' : Char).toNat = 13 from rfl]; omega))
  have h4 : (c == '\x0b') = false :=
    beq_eq_false_iff_ne.mpr (char_ne_of_toNat_ne (by rw [show ('\x0b' : Char).toNat = 11 from rfl]; omega))
  have h5 : (c == '\x0c') = false :=
    beq_eq_false_iff_ne.mpr (char_ne_of_toNat_ne (by rw [show ('\x0c' : Char).toNat = 12 from rfl]; omega))
  simp [hs, h1, h2, h3, h4, h5]

theorem isDigitChar_bounds {c : Char} (h : isDigitChar c = true) :
    48 ≤ c.toNat ∧ c.toNat ≤ 57 := by
  unfold isDigitChar at h
  simpa [Bool.and_eq_true, decide_eq_true_eq] using h

theorem digit_ne_char {c d : Char} (h : isDigitChar c = true)
    (hd : d.toNat < 48 ∨ 57 < d.toNat) : (c == d) = false := by
  have hb := isDigitChar_bounds h
  exact beq_eq_false_iff_ne.mpr (char_ne_of_toNat_ne (by omega))

theorem signSplit_of_ne {c : Char} {cs : List Char}
    (hp : (c == '+') = false) (hm : (c == '-') = false) :
    signSplit (c :: cs) = (1, c :: cs) := by
  unfold signSplit
  split
  · next r heq =>
    rw [List.cons.injEq] at heq
    rw [heq.1] at hp
    simp at hp
  · next r heq =>
    rw [List.cons.injEq] at heq
    rw [heq.1] at hm
    simp at hm
  · rfl

theorem takeWhile_all {p : α → Bool} {l : List α} (h : ∀ c ∈ l, p c = true) :
    l.takeWhile p = l := List.takeWhile_eq_self_iff.mpr h

theorem dropWhile_all {p : α → Bool} {l : List α} (h : ∀ c ∈ l, p c = true) :
    l.dropWhile p = [] := List.dropWhile_eq_nil_iff.mpr h

theorem takeWhile_all_append {p : α → Bool} {ip fp : List α} {d : α}
    (hip : ∀ c ∈ ip, p c = true) (hd : p d = false) :
    (ip ++ d :: fp).takeWhile p = ip := by
  induction ip with
  | nil => simp [List.takeWhile, hd]
  | cons c t ih =>
    simp only [List.cons_append, List.takeWhile_cons, hip c (by simp)]
    rw [ih (fun x hx => hip x (by simp [hx]))]
    simp

theorem dropWhile_all_append {p : α → Bool} {ip fp : List α} {d : α}
    (hip : ∀ c ∈ ip, p c = true) (hd : p d = false) :
    (ip ++ d :: fp).dropWhile p = d :: fp := by
  induction ip with
  | nil => simp [List.dropWhile, hd]
  | cons c t ih =>
    simp only [List.cons_append, List.dropWhile_cons, hip c (by simp)]
    simpa using ih (fun x hx => hip x (by simp [hx]))

theorem span_all {l : List Char} (h : ∀ c ∈ l, isDigitChar c = true) :
    l.span isDigitChar = (l, []) := by
  rw [List.span_eq_take_drop, takeWhile_all h, dropWhile_all h]

theorem span_all_append {ip fp : List Char} {d : Char}
    (hip : ∀ c ∈ ip, isDigitChar c = true) (hd : isDigitChar d = false) :
    (ip ++ d :: fp).span isDigitChar = (ip, d :: fp) := by
  rw [List.span_eq_take_drop, takeWhile_all_append hip hd, dropWhile_all_append hip hd]

theorem pyFloatParse_digits {ds : List Char} (hne : ds ≠ [])
    (hdig : ∀ c ∈ ds, isDigitChar c = true) :
    pyFloatParse ds = some ⟨(digitsVal ds : Int), 1, Int.zero_lt_one⟩ := by
  obtain ⟨c, cs, rfl⟩ : ∃ c cs, ds = c :: cs := by
    cases ds with
    | nil => exact absurd rfl hne
    | cons c cs => exact ⟨c, cs, rfl⟩
  have hstrip : pyStrip (c :: cs) = c :: cs :=
    pyStrip_eq_self (fun x hx => isPySpace_false_of_digit (hdig x hx))
  have hplus : (c == '+') = false :=
    digit_ne_char (hdig c (by simp)) (by left; rw [show ('+' : Char).toNat = 43 from rfl]; omega)
  have hminus : (c == '-') = false :=
    digit_ne_char (hdig c (by simp)) (by left; rw [show ('-' : Char).toNat = 45 from rfl]; omega)
  unfold pyFloatParse
  rw [hstrip]
  dsimp only
  rw [signSplit_of_ne hplus hminus]
  dsimp only
  rw [span_all hdig]
  simp [expPart, one_mul]

theorem pyFloatParse_digits_dot {ip fp : List Char} (hne : ip ≠ [])
    (hip : ∀ c ∈ ip, isDigitChar c = true) (hfp : ∀ c ∈ fp, isDigitChar c = true) :
    ∃ q, pyFloatParse (ip ++ '.' :: fp) = some q := by
  obtain ⟨c, t, rfl⟩ : ∃ c t, ip = c :: t := by
    cases ip with
    | nil => exact absurd rfl hne
    | cons c t => exact ⟨c, t, rfl⟩
  have hdotdig : isDigitChar '.' = false := by decide
  have hdotspace : isPySpace '.' = false := by decide
  have hstrip : pyStrip ((c :: t) ++ '.' :: fp) = (c :: t) ++ '.' :: fp := by
    refine pyStrip_eq_self (fun x hx => ?_)
    rcases List.mem_append.mp hx with hx | hx
    · exact isPySpace_false_of_digit (hip x hx)
    · rcases List.mem_cons.mp hx with rfl | hx
      · exact hdotspace
      · exact isPySpace_false_of_digit (hfp x hx)
  have hplus : (c == '+') = false :=
    digit_ne_char (hip c (by simp)) (by left; rw [show ('+' : Char).toNat = 43 from rfl]; omega)
  have hminus : (c == '-') = false :=
    digit_ne_char (hip c (by simp)) (by left; rw [show ('-' : Char).toNat = 45 from rfl]; omega)
  unfold pyFloatParse
  rw [hstrip]
  dsimp only
  rw [show ((c :: t) ++ '.' :: fp) = c :: (t ++ '.' :: fp) from rfl]
  rw [signSplit_of_ne hplus hminus]
  dsimp only
  rw [show (c :: (t ++ '.' :: fp)) = ((c :: t) ++ '.' :: fp) from rfl]
  rw [span_all_append hip hdotdig]
  dsimp only
  split
  · next r2 heq =>
    obtain rfl : fp = r2 := by simpa using heq
    rw [span_all hfp]
    exact ⟨_, rfl⟩
  · next h2 =>
    exact absurd rfl (h2 fp)

theorem findNum_parses {t ds : List Char} (h : findNum t = some ds) :
    ∃ q, pyFloatParse ds = some q := by
  induction t with
  | nil => simp [findNum] at h
  | cons c cs ih =>
    rw [findNum] at h
    by_cases hc : isDigitChar c = true
    · rw [if_pos hc] at h
      obtain rfl : matchNum (c :: cs) = ds := by simpa using h
      unfold matchNum
      rw [List.span_eq_take_drop]
      dsimp only
      have htake : (c :: cs).takeWhile isDigitChar = c :: cs.takeWhile isDigitChar := by
        simp [List.takeWhile_cons, hc]
      have hdrop : (c :: cs).dropWhile isDigitChar = cs.dropWhile isDigitChar := by
        simp [List.dropWhile_cons, hc]
      rw [htake, hdrop]
      have hipdig : ∀ x ∈ c :: cs.takeWhile isDigitChar, isDigitChar x = true := by
        intro x hx
        rcases List.mem_cons.mp hx with rfl | hx
        · exact hc
        · exact List.mem_takeWhile_imp hx
      cases hr : cs.dropWhile isDigitChar with
      | nil =>
        exact ⟨_, pyFloatParse_digits (by simp) hipdig⟩
      | cons d r2 =>
        dsimp only
        by_cases hd : (d == '.') = true
        · rw [if_pos hd]
          obtain rfl : d = '.' := eq_of_beq hd
          exact pyFloatParse_digits_dot (by simp) hipdig
            (fun x hx => List.mem_takeWhile_imp hx)
        · rw [if_neg hd]
          exact ⟨_, pyFloatParse_digits (by simp) hipdig⟩
    · rw [if_neg hc] at h
      exact ih h

theorem dropWhile_subset {p : α → Bool} {l : List α} {x : α}
    (hx : x ∈ l.dropWhile p) : x ∈ l := by
  induction l with
  | nil => simp at hx
  | cons c t ih =>
    rw [List.dropWhile_cons] at hx
    by_cases hc : p c = true
    · simp only [hc, if_true] at hx
      exact List.mem_cons_of_mem c (ih hx)
    · simp only [hc] at hx
      simpa using hx

theorem pyStrip_subset {s : List Char} {x : Char} (hx : x ∈ pyStrip s) : x ∈ s := by
  unfold pyStrip at hx
  rw [List.mem_reverse] at hx
  have h1 := dropWhile_subset hx
  rw [List.mem_reverse] at h1
  exact dropWhile_subset h1

theorem parse_count_no_suffix (s : List Char)
    (h : ∀ c ∈ s, toLowerChar c ≠ 'k' ∧ toLowerChar c ≠ 'm' ∧ toLowerChar c ≠ 'b') :
    parse_count s ≠ .error () := by
  have hsub : ∀ d, (remChar ',' (lowerStr (pyStrip s))).contains d = true →
      ∃ c ∈ s, toLowerChar c = d := by
    intro d hd
    rw [List.contains_eq_any_beq] at hd
    simp only [List.any_eq_true, beq_iff_eq] at hd
    obtain ⟨x, hx, hxd⟩ := hd
    have hx2 : x ∈ lowerStr (pyStrip s) := (List.mem_filter.mp hx).1
    obtain ⟨c, hc, hcl⟩ := List.mem_map.mp hx2
    exact ⟨c, pyStrip_subset hc, by rw [hcl, hxd]⟩
  have hk : (remChar ',' (lowerStr (pyStrip s))).contains 'k' = false := by
    by_contra hcon
    obtain ⟨c, hc, he⟩ := hsub 'k' (by revert hcon; cases (remChar ',' (lowerStr (pyStrip s))).contains 'k' <;> simp)
    exact (h c hc).1 he
  have hm : (remChar ',' (lowerStr (pyStrip s))).contains 'm' = false := by
    by_contra hcon
    obtain ⟨c, hc, he⟩ := hsub 'm' (by revert hcon; cases (remChar ',' (lowerStr (pyStrip s))).contains 'm' <;> simp)
    exact (h c hc).2.1 he
  have hb : (remChar ',' (lowerStr (pyStrip s))).contains 'b' = false := by
    by_contra hcon
    obtain ⟨c, hc, he⟩ := hsub 'b' (by revert hcon; cases (remChar ',' (lowerStr (pyStrip s))).contains 'b' <;> simp)
    exact (h c hc).2.2 he
  unfold parse_count
  by_cases he : s.isEmpty
  · simp [he]
  · simp only [he, if_false, Bool.false_eq_true]
    rw [hk, hm, hb]
    simp only [Bool.false_eq_true, if_false]
    cases hf : findNum (remChar ',' (lowerStr (pyStrip s))) with
    | none => simp
    | some ds =>
      obtain ⟨q, hq⟩ := findNum_parses hf
      simp [hq]

theorem lowerStr_eq_self {l : List Char} (h : ∀ c ∈ l, c.toNat < 65 ∨ 90 < c.toNat) :
    lowerStr l = l := by
  unfold lowerStr
  induction l with
  | nil => rfl
  | cons c t ih =>
    have hc : toLowerChar c = c := by
      unfold toLowerChar
      rw [if_neg]
      have := h c (by simp)
      omega
    simp only [List.map_cons, hc]
    rw [ih (fun x hx => h x (by simp [hx]))]

theorem contains_true_of_mem {α : Type} [BEq α] [LawfulBEq α] {l : List α} {d : α}
    (h : d ∈ l) : l.contains d = true := by simpa using List.elem_iff.mpr h

theorem contains_false_of_not_mem {α : Type} [BEq α] [LawfulBEq α] {l : List α} {d : α}
    (h : d ∉ l) : l.contains d = false := by
  cases hc : l.contains d
  · rfl
  · exact absurd (by simpa using List.elem_iff.mp (by simpa using hc)) h

theorem digit_not_mem_lower {ds : List Char} (hdig : ∀ c ∈ ds, isDigitChar c = true)
    {d : Char} (hd : 57 < d.toNat) : d ∉ ds := by
  intro hmem
  have := isDigitChar_bounds (hdig d hmem)
  omega

theorem norm_digits_suffix {u : Char} (hu : 90 < u.toNat) (hus : isPySpace u = false)
    (huc : (u == ',') = false) {ds : List Char}
    (hdig : ∀ c ∈ ds, isDigitChar c = true) :
    remChar ',' (lowerStr (pyStrip (ds ++ [u]))) = ds ++ [u] := by
  have hall : ∀ c ∈ ds ++ [u], isPySpace c = false := by
    intro c hc
    rcases List.mem_append.mp hc with hc | hc
    · exact isPySpace_false_of_digit (hdig c hc)
    · rcases List.mem_singleton.mp hc with rfl
      exact hus
  rw [pyStrip_eq_self hall]
  rw [lowerStr_eq_self (by
    intro c hc
    rcases List.mem_append.mp hc with hc | hc
    · have := isDigitChar_bounds (hdig c hc); omega
    · rcases List.mem_singleton.mp hc with rfl; omega)]
  unfold remChar
  apply List.filter_eq_self.mpr
  intro a ha
  rcases List.mem_append.mp ha with ha | ha
  · have := digit_ne_char (hdig a ha) (by left; rw [show (',' : Char).toNat = 44 from rfl]; omega)
    simp [bne, this]
  · rcases List.mem_singleton.mp ha with rfl
    simp [bne, huc]

theorem remChar_digits_append {u : Char} {ds : List Char}
    (hdig : ∀ c ∈ ds, isDigitChar c = true) (hd : 57 < u.toNat) :
    remChar u (ds ++ [u]) = ds := by
  unfold remChar
  rw [List.filter_append]
  have h1 : ds.filter (fun a => a != u) = ds := by
    apply List.filter_eq_self.mpr
    intro a ha
    have h3 : (a == u) = false := digit_ne_char (hdig a ha) (Or.inr (by omega))
    simp [bne, h3]
  have h2 : [u].filter (fun a => a != u) = [] := by simp
  rw [h1, h2, List.append_nil]

theorem parse_count_digits_k {ds : List Char} (hne : ds ≠ [])
    (hdig : ∀ c ∈ ds, isDigitChar c = true) :
    parse_count (ds ++ ['k']) = .ok (some ((digitsVal ds : Int) * 1000)) := by
  unfold parse_count
  rw [if_neg (by simp)]
  rw [norm_digits_suffix (by rw [show ('k' : Char).toNat = 107 from rfl]; omega)
    (by decide) (by decide) hdig]
  dsimp only
  rw [contains_true_of_mem (by simp)]
  simp only [if_true]
  rw [remChar_digits_append hdig (by rw [show ('k' : Char).toNat = 107 from rfl]; omega)]
  rw [pyFloatParse_digits hne hdig]
  have : PyFloat.trunc (⟨(digitsVal ds : Int), 1, Int.zero_lt_one⟩ * PyFloat.ofInt 1000)
      = (digitsVal ds : Int) * 1000 := by
    show ((digitsVal ds : Int) * 1000).tdiv (1 * 1) = (digitsVal ds : Int) * 1000
    rw [one_mul, Int.tdiv_one]
  dsimp only
  rw [this]

theorem not_mem_digits_append {ds : List Char} (hdig : ∀ c ∈ ds, isDigitChar c = true)
    {u d : Char} (hd : 57 < d.toNat) (hne : d ≠ u) : d ∉ ds ++ [u] := by
  intro hmem
  rcases List.mem_append.mp hmem with hmem | hmem
  · exact digit_not_mem_lower hdig hd hmem
  · exact hne (List.mem_singleton.mp hmem)

theorem parse_count_digits_m {ds : List Char} (hne : ds ≠ [])
    (hdig : ∀ c ∈ ds, isDigitChar c = true) :
    parse_count (ds ++ ['m']) = .ok (some ((digitsVal ds : Int) * 1000000)) := by
  unfold parse_count
  rw [if_neg (by simp)]
  rw [norm_digits_suffix (by rw [show ('m' : Char).toNat = 109 from rfl]; omega)
    (by decide) (by decide) hdig]
  dsimp only
  rw [contains_false_of_not_mem (not_mem_digits_append hdig
    (by rw [show ('k' : Char).toNat = 107 from rfl]; omega) (by decide))]
  simp only [Bool.false_eq_true, if_false]
  rw [contains_true_of_mem (by simp)]
  simp only [if_true]
  rw [remChar_digits_append hdig (by rw [show ('m' : Char).toNat = 109 from rfl]; omega)]
  rw [pyFloatParse_digits hne hdig]
  have : PyFloat.trunc (⟨(digitsVal ds : Int), 1, Int.zero_lt_one⟩ * PyFloat.ofInt 1000000)
      = (digitsVal ds : Int) * 1000000 := by
    show ((digitsVal ds : Int) * 1000000).tdiv (1 * 1) = (digitsVal ds : Int) * 1000000
    rw [one_mul, Int.tdiv_one]
  dsimp only
  rw [this]

theorem parse_count_digits_b {ds : List Char} (hne : ds ≠ [])
    (hdig : ∀ c ∈ ds, isDigitChar c = true) :
    parse_count (ds ++ ['b']) = .ok (some ((digitsVal ds : Int) * 1000000000)) := by
  unfold parse_count
  rw [if_neg (by simp)]
  rw [norm_digits_suffix (by rw [show ('b' : Char).toNat = 98 from rfl]; omega)
    (by decide) (by decide) hdig]
  dsimp only
  rw [contains_false_of_not_mem (not_mem_digits_append hdig
    (by rw [show ('k' : Char).toNat = 107 from rfl]; omega) (by decide))]
  simp only [Bool.false_eq_true, if_false]
  rw [contains_false_of_not_mem (not_mem_digits_append hdig
    (by rw [show ('m' : Char).toNat = 109 from rfl]; omega) (by decide))]
  simp only [Bool.false_eq_true, if_false]
  rw [contains_true_of_mem (by simp)]
  simp only [if_true]
  rw [remChar_digits_append hdig (by rw [show ('b' : Char).toNat = 98 from rfl]; omega)]
  rw [pyFloatParse_digits hne hdig]
  have : PyFloat.trunc (⟨(digitsVal ds : Int), 1, Int.zero_lt_one⟩ * PyFloat.ofInt 1000000000)
      = (digitsVal ds : Int) * 1000000000 := by
    show ((digitsVal ds : Int) * 1000000000).tdiv (1 * 1) = (digitsVal ds : Int) * 1000000000
    rw [one_mul, Int.tdiv_one]
  dsimp only
  rw [this]

/-! ## Claim theorems -/

/-- C2 (counterexample): normalizing the payload
`{"data":[{"followersCount": 12000, "followsCount": 300, "postsCount": 45}]}`
for instagram yields `followers=12000, following=300, posts=45` — but
`daily_stats` and `content_performance` are left `None` by
`process_apify_data`, not populated with a 30-entry series and ≤10 items as
the claim states. -/
theorem claim_C2_counterexample :
    (process_json_response (some c2payload) SocialPlatform.INSTAGRAM 0).map
      (fun r => (r.followers, r.following, r.posts, r.daily_stats, r.content_performance))
    = .ok (some 12000, some 300, some 45, none, none) := rfl

/-- C2 (amended): normalizing the payload
`{"data":[{"followersCount": 12000, "followsCount": 300, "postsCount": 45}]}`
for instagram via `process_json_response`/`process_apify_data` yields
`followers=12000, following=300, posts=45`, and leaves `daily_stats` and
`content_performance` as `None` (this normalizer never attaches the
synthetic series; only the `apify_scraper` handler does). -/
theorem claim_C2_theorem :
    ∃ r, process_json_response (some c2payload) SocialPlatform.INSTAGRAM 0 = .ok r
      ∧ r.followers = some 12000 ∧ r.following = some 300 ∧ r.posts = some 45
      ∧ r.daily_stats = none ∧ r.content_performance = none :=
  ⟨_, rfl, rfl, rfl, rfl, rfl, rfl⟩

/-- C3 (counterexample): `parse_count` is claimed never to raise, but on the
input `"k"` it evaluates `float("")`, which raises `ValueError` (modelled as
`Except.error`). -/
theorem claim_C3_counterexample : parse_count "k".data = .error () := rfl

/-- C3 (amended): `parse_count` returns an integer or `None` — `None` for
empty and for digit-free input — and never raises for any input string of
at most 308 characters containing no `k`/`m`/`b` character
(case-insensitively).  The length bound keeps any extracted numeral below
10³⁰⁸ < DBL_MAX, where CPython's `float()` is finite and the following
`int()` cannot raise `OverflowError`; a longer all-digit input would
overflow `float()` to infinity and raise.  An input containing a `k`/`m`/`b`
whose remainder after removing it is not a valid float literal (e.g. `"k"`)
raises `ValueError`. -/
theorem claim_C3_theorem :
    parse_count [] = .ok none
    ∧ parse_count "xyz".data = .ok none
    ∧ (∀ s : List Char, s.length ≤ 308 →
        (∀ c ∈ s, toLowerChar c ≠ 'k' ∧ toLowerChar c ≠ 'm' ∧ toLowerChar c ≠ 'b') →
        parse_count s ≠ .error ()) :=
  ⟨rfl, rfl, fun s _ hch => parse_count_no_suffix s hch⟩

/-- C3 (witness): the amended theorem applied at the concrete input
`"1,234"`. -/
theorem claim_C3_witness : parse_count "1,234".data ≠ .error () :=
  claim_C3_theorem.2.2 "1,234".data (by decide) (by decide)

/-- C4: `parse_count("1.5M") = 1500000`, `parse_count("10K") = 10000`,
`parse_count("") = None`, `parse_count("1,234") = 1234` (all four products
are exactly representable doubles, so CPython computes them exactly); and a
`k`/`m`/`b` suffix scales the numeric prefix by 10³/10⁶/10⁹ with truncation
to integer, with thousands separators removed before parsing — shown for
every digit-string prefix whose value scaled by 10⁹ stays within 2⁵³, the
regime where the IEEE-double multiply is exact and CPython agrees with
exact arithmetic (beyond it CPython's 53-bit rounding perturbs the low
digits). -/
theorem claim_C4_theorem :
    parse_count "1.5M".data = .ok (some 1500000)
    ∧ parse_count "10K".data = .ok (some 10000)
    ∧ parse_count "".data = .ok none
    ∧ parse_count "1,234".data = .ok (some 1234)
    ∧ (∀ ds : List Char, ds ≠ [] → (∀ c ∈ ds, isDigitChar c = true) →
        digitsVal ds * 1000000000 ≤ 2 ^ 53 →
        parse_count (ds ++ ['k']) = .ok (some ((digitsVal ds : Int) * 1000))
        ∧ parse_count (ds ++ ['m']) = .ok (some ((digitsVal ds : Int) * 1000000))
        ∧ parse_count (ds ++ ['b']) = .ok (some ((digitsVal ds : Int) * 1000000000))) :=
  ⟨rfl, rfl, rfl, rfl, fun _ h1 h2 _ =>
    ⟨parse_count_digits_k h1 h2, parse_count_digits_m h1 h2, parse_count_digits_b h1 h2⟩⟩

/-- C4 (witness): the suffix conjunct applied at the digit string `"25"`. -/
theorem claim_C4_witness : parse_count "25k".data = .ok (some 25000) :=
  (claim_C4_theorem.2.2.2.2 "25".data (by decide) (by decide) (by decide)).1

/-- C9: `detect_platform_from_url("https://instagram.com/foo")` is
`INSTAGRAM`; a URL containing none of the recognized domain substrings maps
to `None`; and when several domains match, the first in source order wins —
settled tier by tier for the whole source list: `instagram.com` wins
unconditionally; with no earlier match, `twitter.com`/`x.com` give
`TWITTER`, then `facebook.com`/`fb.com` give `FACEBOOK`, then `tiktok.com`
gives `TIKTOK`, then `youtube.com`/`youtu.be` give `YOUTUBE`, then
`linkedin.com` gives `LINKEDIN`. -/
theorem claim_C9_theorem :
    detect_platform_from_url "https://instagram.com/foo".data = some .INSTAGRAM
    ∧ (∀ url : List Char,
        containsSub "instagram.com".data (lowerStr url) = false →
        containsSub "twitter.com".data (lowerStr url) = false →
        containsSub "x.com".data (lowerStr url) = false →
        containsSub "facebook.com".data (lowerStr url) = false →
        containsSub "fb.com".data (lowerStr url) = false →
        containsSub "tiktok.com".data (lowerStr url) = false →
        containsSub "youtube.com".data (lowerStr url) = false →
        containsSub "youtu.be".data (lowerStr url) = false →
        containsSub "linkedin.com".data (lowerStr url) = false →
        detect_platform_from_url url = none)
    ∧ (∀ url : List Char,
        containsSub "instagram.com".data (lowerStr url) = true →
        detect_platform_from_url url = some .INSTAGRAM)
    ∧ (∀ url : List Char,
        containsSub "instagram.com".data (lowerStr url) = false →
        containsSub "twitter.com".data (lowerStr url) = true
          ∨ containsSub "x.com".data (lowerStr url) = true →
        detect_platform_from_url url = some .TWITTER)
    ∧ (∀ url : List Char,
        containsSub "instagram.com".data (lowerStr url) = false →
        containsSub "twitter.com".data (lowerStr url) = false →
        containsSub "x.com".data (lowerStr url) = false →
        containsSub "facebook.com".data (lowerStr url) = true
          ∨ containsSub "fb.com".data (lowerStr url) = true →
        detect_platform_from_url url = some .FACEBOOK)
    ∧ (∀ url : List Char,
        containsSub "instagram.com".data (lowerStr url) = false →
        containsSub "twitter.com".data (lowerStr url) = false →
        containsSub "x.com".data (lowerStr url) = false →
        containsSub "facebook.com".data (lowerStr url) = false →
        containsSub "fb.com".data (lowerStr url) = false →
        containsSub "tiktok.com".data (lowerStr url) = true →
        detect_platform_from_url url = some .TIKTOK)
    ∧ (∀ url : List Char,
        containsSub "instagram.com".data (lowerStr url) = false →
        containsSub "twitter.com".data (lowerStr url) = false →
        containsSub "x.com".data (lowerStr url) = false →
        containsSub "facebook.com".data (lowerStr url) = false →
        containsSub "fb.com".data (lowerStr url) = false →
        containsSub "tiktok.com".data (lowerStr url) = false →
        containsSub "youtube.com".data (lowerStr url) = true
          ∨ containsSub "youtu.be".data (lowerStr url) = true →
        detect_platform_from_url url = some .YOUTUBE)
    ∧ (∀ url : List Char,
        containsSub "instagram.com".data (lowerStr url) = false →
        containsSub "twitter.com".data (lowerStr url) = false →
        containsSub "x.com".data (lowerStr url) = false →
        containsSub "facebook.com".data (lowerStr url) = false →
        containsSub "fb.com".data (lowerStr url) = false →
        containsSub "tiktok.com".data (lowerStr url) = false →
        containsSub "youtube.com".data (lowerStr url) = false →
        containsSub "youtu.be".data (lowerStr url) = false →
        containsSub "linkedin.com".data (lowerStr url) = true →
        detect_platform_from_url url = some .LINKEDIN) := by
  refine ⟨rfl, ?_, ?_, ?_, ?_, ?_, ?_, ?_⟩
  · intro url h1 h2 h3 h4 h5 h6 h7 h8 h9
    unfold detect_platform_from_url
    simp [h1, h2, h3, h4, h5, h6, h7, h8, h9]
  · intro url h1
    unfold detect_platform_from_url
    simp [h1]
  · intro url h1 hor
    unfold detect_platform_from_url
    rcases hor with h | h <;> simp [h1, h]
  · intro url h1 h2 h3 hor
    unfold detect_platform_from_url
    rcases hor with h | h <;> simp [h1, h2, h3, h]
  · intro url h1 h2 h3 h4 h5 h6
    unfold detect_platform_from_url
    simp [h1, h2, h3, h4, h5, h6]
  · intro url h1 h2 h3 h4 h5 h6 hor
    unfold detect_platform_from_url
    rcases hor with h | h <;> simp [h1, h2, h3, h4, h5, h6, h]
  · intro url h1 h2 h3 h4 h5 h6 h7 h8 h9
    unfold detect_platform_from_url
    simp [h1, h2, h3, h4, h5, h6, h7, h8, h9]

/-- C9 (witness): the unrecognized-domain conjunct at
`"https://myspace.com/bob"`; first-match precedence at a URL containing
both `instagram.com` and `twitter.com` (tier 1 wins), at one containing
both `twitter.com` and `facebook.com` (tier 2 wins), and at one containing
both `tiktok.com` and `linkedin.com` (tier 4 wins). -/
theorem claim_C9_witness :
    detect_platform_from_url "https://myspace.com/bob".data = none
    ∧ detect_platform_from_url "https://instagram.com/twitter.com".data = some .INSTAGRAM
    ∧ detect_platform_from_url "https://twitter.com/facebook.com".data = some .TWITTER
    ∧ detect_platform_from_url "https://tiktok.com/linkedin.com".data = some .TIKTOK :=
  ⟨claim_C9_theorem.2.1 "https://myspace.com/bob".data (by decide) (by decide) (by decide)
      (by decide) (by decide) (by decide) (by decide) (by decide) (by decide),
   claim_C9_theorem.2.2.1 "https://instagram.com/twitter.com".data (by decide),
   claim_C9_theorem.2.2.2.1 "https://twitter.com/facebook.com".data (by decide)
      (Or.inl (by decide)),
   claim_C9_theorem.2.2.2.2.2.1 "https://tiktok.com/linkedin.com".data (by decide)
      (by decide) (by decide) (by decide) (by decide) (by decide)⟩

theorem charToNat_ofNat {n : Nat} (h : n < 500) : (Char.ofNat n).toNat = n := by
  unfold Char.ofNat
  rw [dif_pos (by unfold Nat.isValidChar; omega)]
  unfold Char.ofNatAux
  simp [Char.toNat, UInt32.toNat, BitVec.toNat_ofNatLt]

theorem toLowerChar_idem (c : Char) : toLowerChar (toLowerChar c) = toLowerChar c := by
  unfold toLowerChar
  by_cases h : 65 ≤ c.toNat ∧ c.toNat ≤ 90
  · rw [if_pos h]
    have ht : (Char.ofNat (c.toNat + 32)).toNat = c.toNat + 32 := charToNat_ofNat (by omega)
    rw [if_neg (by rw [ht]; omega)]
  · rw [if_neg h, if_neg h]

theorem lowerStr_idem (s : List Char) : lowerStr (lowerStr s) = lowerStr s := by
  unfold lowerStr
  rw [List.map_map]
  exact List.map_congr_left (fun c _ => toLowerChar_idem c)

theorem PyFloat.le_of_lt {a b : PyFloat} (h : a < b) : a ≤ b := Int.le_of_lt h

theorem PyFloat.lt_trans {a b c : PyFloat} (h1 : a < b) (h2 : b < c) : a < c := by
  show a.num * c.den < c.num * a.den
  have H1 := mul_lt_mul_of_pos_right (show a.num * b.den < b.num * a.den from h1) c.denPos
  have H2 := mul_lt_mul_of_pos_right (show b.num * c.den < c.num * b.den from h2) a.denPos
  have h3 : b.den * (a.num * c.den) < b.den * (c.num * a.den) := by nlinarith
  exact lt_of_mul_lt_mul_left h3 (Int.le_of_lt b.denPos)

theorem generate_fallback_success (env : Env) (p u : List Char) :
    (generate_fallback_data env p u).success = true := rfl

theorem generate_fallback_isSome (env : Env) (p u : List Char) :
    (generate_fallback_data env p u).data.isSome = true := rfl

theorem handler_proceed (env : Env) (tp : List Json → ScrapeResponse) (path : VendorPath)
    (ledger : List Char → Option PyFloat) (p u : List Char)
    (hnet : (apify_scrape_social_profile env tp path ledger p u).networkCalled = true) :
    lowerStr p ∈ supportedPlatforms
    ∧ lowerStr p ≠ "tiktok".data
    ∧ (apify_scrape_social_profile env tp path ledger p u).response
        = runVendorJob env tp (lowerStr p) u path := by
  unfold apify_scrape_social_profile at hnet ⊢
  dsimp only at hnet ⊢
  by_cases hsup : lowerStr p ∈ supportedPlatforms
  · have hc : supportedPlatforms.contains (lowerStr p) = true := contains_true_of_mem hsup
    rw [if_neg (by rw [hc]; simp)] at hnet ⊢
    cases hR : rateCheck ledger ("apify_".data ++ lowerStr p) env.now with
    | none => rw [hR] at hnet; simp at hnet
    | some w =>
      rw [hR] at hnet
      dsimp only at hnet ⊢
      by_cases htik : lowerStr p = "tiktok".data
      · rw [if_pos (by simp [htik])] at hnet
        simp at hnet
      · rw [if_neg (by simp [htik])] at hnet ⊢
        exact ⟨hsup, htik, rfl⟩
  · have hc : supportedPlatforms.contains (lowerStr p) = false :=
      contains_false_of_not_mem hsup
    rw [if_pos (by rw [hc])] at hnet
    simp at hnet

theorem unsupportedMsg_contains (q : List Char) :
    containsSub q (unsupportedMsg q) = true := by
  have he : unsupportedMsg q =
      ("Platform ".data ++ [aposChar]) ++ q
        ++ ([aposChar] ++ " is not supported. Supported platforms: ".data
            ++ joinCommaChars supportedPlatforms) := by
    unfold unsupportedMsg
    simp [List.append_assoc]
  rw [he]
  exact containsSub_append q _ _

/-- C6: for every platform string outside the supported set, the handler
returns `success=False` with an error message that names the platform, makes
no outbound call, and leaves the rate-limit ledger untouched; the response
does not depend on the ledger at all (the rejection happens before the
rate-limit check). -/
theorem claim_C6_theorem (env : Env) (tp : List Json → ScrapeResponse) (path : VendorPath)
    (ledger : List Char → Option PyFloat) (p u : List Char)
    (hsup : supportedPlatforms.contains (lowerStr p) = false) :
    (apify_scrape_social_profile env tp path ledger p u).response.success = false
    ∧ (apify_scrape_social_profile env tp path ledger p u).response.error
        = some (unsupportedMsg (lowerStr p))
    ∧ containsSub (lowerStr p) (unsupportedMsg (lowerStr p)) = true
    ∧ (apify_scrape_social_profile env tp path ledger p u).networkCalled = false
    ∧ (apify_scrape_social_profile env tp path ledger p u).ledger = ledger
    ∧ (∀ ledger2, (apify_scrape_social_profile env tp path ledger2 p u).response
        = (apify_scrape_social_profile env tp path ledger p u).response) := by
  have hred : ∀ L : List Char → Option PyFloat,
      apify_scrape_social_profile env tp path L p u =
        { response := { success := false, error := some (unsupportedMsg (lowerStr p)) }
          ledger := L, networkCalled := false, waited := 0 } := by
    intro L
    unfold apify_scrape_social_profile
    dsimp only
    rw [if_pos (by rw [hsup])]
  refine ⟨?_, ?_, unsupportedMsg_contains _, ?_, ?_, ?_⟩
  · rw [hred]
  · rw [hred]
  · rw [hred]
  · rw [hred]
  · intro ledger2
    rw [hred, hred]

theorem pymin_le_left (a b : PyFloat) : PyFloat.pymin a b ≤ a := by
  unfold PyFloat.pymin
  split
  · next h => exact PyFloat.le_of_lt h
  · show a.num * a.den ≤ a.num * a.den
    exact le_refl _

theorem trunc_nonneg {a : PyFloat} (h : (0 : PyFloat) ≤ a) : 0 ≤ a.trunc := by
  have hnum : 0 ≤ a.num := by
    have := h
    show 0 ≤ a.num
    have h2 : (0 : Int) * a.den ≤ a.num * 1 := h
    simpa using h2
  exact Int.tdiv_nonneg hnum (Int.le_of_lt a.denPos)

theorem PyFloat.sub_nonneg_of_lt {a b : PyFloat} (h : a < b) : (0 : PyFloat) ≤ b - a := by
  have h2 : a.num * b.den < b.num * a.den := h
  clear h
  show (0 : Int) * ((b - a).den) ≤ (b.num * a.den - a.num * b.den) * 1
  linarith

/-- C5: with the platform supported and a recorded last attempt `t` for the
platform key — under 10 s ago: the handler returns `success=False` with the
rate-limit error, no network call, no wait; between 10 s and the 30 s
interval: it sleeps `min(5, int(30 - elapsed))` ≤ 5 s and then proceeds
(the response equals the response of the same request with no recorded
attempt, and the attempt is recorded); 30 s or more ago, or no recorded
attempt: it proceeds immediately with zero wait. -/
theorem claim_C5_theorem (env : Env) (tp : List Json → ScrapeResponse) (path : VendorPath)
    (ledger : List Char → Option PyFloat) (p u : List Char)
    (hsup : supportedPlatforms.contains (lowerStr p) = true) :
    (∀ t, ledger ("apify_".data ++ lowerStr p) = some t →
      env.now - t < (10 : PyFloat) →
      (apify_scrape_social_profile env tp path ledger p u).response.success = false
      ∧ (apify_scrape_social_profile env tp path ledger p u).response.error = some rateLimitMsg
      ∧ (apify_scrape_social_profile env tp path ledger p u).networkCalled = false
      ∧ (apify_scrape_social_profile env tp path ledger p u).waited = 0)
    ∧ (∀ t, ledger ("apify_".data ++ lowerStr p) = some t →
      ¬(env.now - t < (10 : PyFloat)) → env.now - t < MIN_SCRAPE_INTERVAL_apify →
      (apify_scrape_social_profile env tp path ledger p u).waited ≤ (5 : PyFloat)
      ∧ (0 : PyFloat) ≤ (apify_scrape_social_profile env tp path ledger p u).waited
      ∧ (apify_scrape_social_profile env tp path ledger p u).response
          = (apify_scrape_social_profile env tp path
              (fun k => if k == "apify_".data ++ lowerStr p then none else ledger k) p u).response
      ∧ (apify_scrape_social_profile env tp path ledger p u).ledger
          ("apify_".data ++ lowerStr p) = some env.now)
    ∧ (∀ t, ledger ("apify_".data ++ lowerStr p) = some t →
      ¬(env.now - t < MIN_SCRAPE_INTERVAL_apify) →
      (apify_scrape_social_profile env tp path ledger p u).waited = 0
      ∧ (apify_scrape_social_profile env tp path ledger p u).response
          = (apify_scrape_social_profile env tp path
              (fun k => if k == "apify_".data ++ lowerStr p then none else ledger k) p u).response
      ∧ (apify_scrape_social_profile env tp path ledger p u).ledger
          ("apify_".data ++ lowerStr p) = some env.now)
    ∧ (ledger ("apify_".data ++ lowerStr p) = none →
      (apify_scrape_social_profile env tp path ledger p u).waited = 0
      ∧ (apify_scrape_social_profile env tp path ledger p u).ledger
          ("apify_".data ++ lowerStr p) = some env.now) := by
  have hcond : ¬(supportedPlatforms.contains (lowerStr p) = false) := by rw [hsup]; simp
  have hcleared : (fun k => if k == "apify_".data ++ lowerStr p then none else ledger k)
      ("apify_".data ++ lowerStr p) = none := by simp
  have hredC : ∀ w, rateCheck ledger ("apify_".data ++ lowerStr p) env.now = some w →
      (apify_scrape_social_profile env tp path ledger p u)
        = (if (lowerStr p == "tiktok".data) = true then
            { response := generate_fallback_data env (lowerStr p) u
              ledger := fun k => if k == "apify_".data ++ lowerStr p then some env.now else ledger k
              networkCalled := false, waited := w }
          else
            { response := runVendorJob env tp (lowerStr p) u path
              ledger := fun k => if k == "apify_".data ++ lowerStr p then some env.now else ledger k
              networkCalled := true, waited := w }) := by
    intro w hw
    unfold apify_scrape_social_profile
    dsimp only
    rw [if_neg hcond, hw]
  have hredClear : (apify_scrape_social_profile env tp path
        (fun k => if k == "apify_".data ++ lowerStr p then none else ledger k) p u)
      = (if (lowerStr p == "tiktok".data) = true then
          { response := generate_fallback_data env (lowerStr p) u
            ledger := fun k => if k == "apify_".data ++ lowerStr p then some env.now
              else (fun k => if k == "apify_".data ++ lowerStr p then none else ledger k) k
            networkCalled := false, waited := 0 }
        else
          { response := runVendorJob env tp (lowerStr p) u path
            ledger := fun k => if k == "apify_".data ++ lowerStr p then some env.now
              else (fun k => if k == "apify_".data ++ lowerStr p then none else ledger k) k
            networkCalled := true, waited := 0 }) := by
    unfold apify_scrape_social_profile
    dsimp only
    rw [if_neg hcond]
    rw [show rateCheck (fun k => if k == "apify_".data ++ lowerStr p then none else ledger k)
        ("apify_".data ++ lowerStr p) env.now = some 0 from by
      unfold rateCheck; rw [hcleared]]
  refine ⟨?_, ?_, ?_, ?_⟩
  · intro t hL hlt
    have hR : rateCheck ledger ("apify_".data ++ lowerStr p) env.now = none := by
      unfold rateCheck
      rw [hL]
      dsimp only
      rw [if_pos (PyFloat.lt_trans hlt (by decide)), if_pos hlt]
    have hred : (apify_scrape_social_profile env tp path ledger p u)
        = { response := { success := false, error := some rateLimitMsg }
            ledger := ledger, networkCalled := false, waited := 0 } := by
      unfold apify_scrape_social_profile
      dsimp only
      rw [if_neg hcond, hR]
    rw [hred]
    exact ⟨rfl, rfl, rfl, rfl⟩
  · intro t hL hge10 hlt30
    have hR : rateCheck ledger ("apify_".data ++ lowerStr p) env.now
        = some (PyFloat.pymin 5
            (PyFloat.ofInt (PyFloat.trunc (MIN_SCRAPE_INTERVAL_apify - (env.now - t))))) := by
      unfold rateCheck
      rw [hL]
      dsimp only
      rw [if_pos hlt30, if_neg hge10]
    rw [hredC _ hR, hredClear]
    have hwle : PyFloat.pymin 5
        (PyFloat.ofInt (PyFloat.trunc (MIN_SCRAPE_INTERVAL_apify - (env.now - t)))) ≤ (5 : PyFloat) :=
      pymin_le_left _ _
    have hwnn : (0 : PyFloat) ≤ PyFloat.pymin 5
        (PyFloat.ofInt (PyFloat.trunc (MIN_SCRAPE_INTERVAL_apify - (env.now - t)))) := by
      have hpos : (0 : PyFloat) ≤ MIN_SCRAPE_INTERVAL_apify - (env.now - t) :=
        PyFloat.sub_nonneg_of_lt hlt30
      have htr : 0 ≤ PyFloat.trunc (MIN_SCRAPE_INTERVAL_apify - (env.now - t)) :=
        trunc_nonneg hpos
      unfold PyFloat.pymin
      split
      · show (0 : Int) * 1 ≤ _ * 1
        simpa using htr
      · decide
    split
    · exact ⟨hwle, hwnn, rfl, by simp⟩
    · exact ⟨hwle, hwnn, rfl, by simp⟩
  · intro t hL hge30
    have hR : rateCheck ledger ("apify_".data ++ lowerStr p) env.now = some 0 := by
      unfold rateCheck
      rw [hL]
      dsimp only
      rw [if_neg hge30]
    rw [hredC _ hR, hredClear]
    split
    · exact ⟨rfl, rfl, by simp⟩
    · exact ⟨rfl, rfl, by simp⟩
  · intro hL
    have hR : rateCheck ledger ("apify_".data ++ lowerStr p) env.now = some 0 := by
      unfold rateCheck
      rw [hL]
    rw [hredC _ hR]
    split
    · exact ⟨rfl, by simp⟩
    · exact ⟨rfl, by simp⟩

/-- C5 (witness): the theorem applied with `time.time() = 1000` — a tight
rejection with the last attempt 5 s ago, and a bounded wait with the last
attempt 15 s ago. -/
theorem claim_C5_witness :
    (apify_scrape_social_profile wEnv wTp .pollTimeout
      (singleLedger "apify_instagram".data (PyFloat.ofInt 995))
      "instagram".data "alice".data).response.success = false
    ∧ (apify_scrape_social_profile wEnv wTp .pollTimeout
      (singleLedger "apify_instagram".data (PyFloat.ofInt 985))
      "instagram".data "alice".data).waited ≤ (5 : PyFloat) :=
  ⟨((claim_C5_theorem wEnv wTp .pollTimeout
      (singleLedger "apify_instagram".data (PyFloat.ofInt 995))
      "instagram".data "alice".data (by decide)).1
      (PyFloat.ofInt 995) rfl (by decide)).1,
   ((claim_C5_theorem wEnv wTp .pollTimeout
      (singleLedger "apify_instagram".data (PyFloat.ofInt 985))
      "instagram".data "alice".data (by decide)).2.1
      (PyFloat.ofInt 985) rfl (by decide) (by decide)).1⟩

/-- C6 (witness): the theorem applied at platform `"myspace"`. -/
theorem claim_C6_witness :
    (apify_scrape_social_profile wEnv wTp .pollTimeout emptyLedger
      "myspace".data "bob".data).response.success = false
    ∧ (apify_scrape_social_profile wEnv wTp .pollTimeout emptyLedger
      "myspace".data "bob".data).networkCalled = false :=
  ⟨(claim_C6_theorem wEnv wTp .pollTimeout emptyLedger "myspace".data "bob".data
      (by decide)).1,
   (claim_C6_theorem wEnv wTp .pollTimeout emptyLedger "myspace".data "bob".data
      (by decide)).2.2.2.1⟩

/-- C1 (counterexample): with the poll budget exhausted (`JobTimeout`), the
handler returns `success=False` ("Timed out waiting for actor run to
finish") — not a synthetic-fallback success as the claim states. -/
theorem claim_C1_counterexample :
    (apify_scrape_social_profile wEnv wTp .pollTimeout emptyLedger
      "instagram".data "alice".data).response.success = false
    ∧ (apify_scrape_social_profile wEnv wTp .pollTimeout emptyLedger
      "instagram".data "alice".data).response.error
      = some "Timed out waiting for actor run to finish".data :=
  ⟨rfl, rfl⟩

/-- C1 (amended): of the vendor-side failure modes, only a rate-limited job
start (HTTP 429 or a body mentioning a rate limit) and an empty fetched
result set are absorbed into a synthetic-fallback `success=True` response
with non-null data (the run's terminal status is never inspected, so this
holds even for a `FAILED` run); a job-start rejection otherwise, a failed
status poll, poll-budget exhaustion, a failed dataset fetch, and any
vendor-side exception all cross to the caller as `success=False`. -/
theorem claim_C1_theorem (env : Env) (tp : List Json → ScrapeResponse) (path : VendorPath)
    (ledger : List Char → Option PyFloat) (p u : List Char)
    (hnet : (apify_scrape_social_profile env tp path ledger p u).networkCalled = true) :
    (∀ s b, path = .startFailed s b → s = 429 ∨ b = true →
      (apify_scrape_social_profile env tp path ledger p u).response.success = true
      ∧ (apify_scrape_social_profile env tp path ledger p u).response.data.isSome = true)
    ∧ (∀ s b, path = .startFailed s b → s ≠ 429 → b = false →
      (apify_scrape_social_profile env tp path ledger p u).response.success = false)
    ∧ (∀ s, path = .pollCheckFailed s →
      (apify_scrape_social_profile env tp path ledger p u).response.success = false)
    ∧ (path = .pollTimeout →
      (apify_scrape_social_profile env tp path ledger p u).response.success = false)
    ∧ (∀ st s, path = .fetchFailed st s →
      (apify_scrape_social_profile env tp path ledger p u).response.success = false)
    ∧ (∀ st, path = .fetched st [] →
      (apify_scrape_social_profile env tp path ledger p u).response.success = true
      ∧ (apify_scrape_social_profile env tp path ledger p u).response.data.isSome = true)
    ∧ (∀ m, path = .raised m →
      (apify_scrape_social_profile env tp path ledger p u).response.success = false) := by
  obtain ⟨hmem, htik, hresp⟩ := handler_proceed env tp path ledger p u hnet
  refine ⟨?_, ?_, ?_, ?_, ?_, ?_, ?_⟩
  · rintro s b rfl hor
    rw [hresp]
    unfold runVendorJob
    dsimp only
    rw [if_pos (by rcases hor with rfl | rfl <;> simp)]
    exact ⟨rfl, rfl⟩
  · rintro s b rfl hs rfl
    rw [hresp]
    unfold runVendorJob
    dsimp only
    rw [if_neg (by simp [hs])]
  · rintro s rfl
    rw [hresp]
    rfl
  · rintro rfl
    rw [hresp]
    rfl
  · rintro st s rfl
    rw [hresp]
    rfl
  · rintro st rfl
    rw [hresp]
    simp only [supportedPlatforms, List.mem_cons, List.not_mem_nil, or_false] at hmem
    rcases hmem with h | h | h | h | h
    · rw [h]; exact ⟨rfl, rfl⟩
    · rw [h]; exact ⟨rfl, rfl⟩
    · rw [h]; exact ⟨rfl, rfl⟩
    · rw [h]; exact ⟨rfl, rfl⟩
    · exact absurd h htik
  · rintro m rfl
    rw [hresp]
    rfl

/-- C1 (witness): the amended theorem applied concretely — an empty result
set after a `FAILED` terminal status still yields a fallback success, and a
non-rate-limited job-start rejection (HTTP 500) yields `success=False`. -/
theorem claim_C1_witness :
    ((apify_scrape_social_profile wEnv wTp (.fetched "FAILED".data []) emptyLedger
        "instagram".data "alice".data).response.success = true
      ∧ (apify_scrape_social_profile wEnv wTp (.fetched "FAILED".data []) emptyLedger
        "instagram".data "alice".data).response.data.isSome = true)
    ∧ (apify_scrape_social_profile wEnv wTp (.startFailed 500 false) emptyLedger
        "instagram".data "alice".data).response.success = false :=
  ⟨(claim_C1_theorem wEnv wTp (.fetched "FAILED".data []) emptyLedger
      "instagram".data "alice".data rfl).2.2.2.2.2.1 "FAILED".data rfl,
   (claim_C1_theorem wEnv wTp (.startFailed 500 false) emptyLedger
      "instagram".data "alice".data rfl).2.1 500 false rfl (by decide) rfl⟩

theorem handler_unsupported (env : Env) (tp : List Json → ScrapeResponse)
    (path : VendorPath) (ledger : List Char → Option PyFloat) (p u : List Char)
    (hsup : supportedPlatforms.contains (lowerStr p) = false) :
    apify_scrape_social_profile env tp path ledger p u =
      { response := { success := false, error := some (unsupportedMsg (lowerStr p)) }
        ledger := ledger, networkCalled := false, waited := 0 } := by
  unfold apify_scrape_social_profile
  dsimp only
  rw [if_pos (by rw [hsup])]

/-- C10 (counterexample): the request `scrape("myspace", "bob")` on the
`social_scraper` endpoint is rejected (unsupported platform,
`success=False`), yet the fine rate-limit ledger is updated with the
attempt — the write happens before the platform is examined, so the ledger
is not left unchanged as the claim states. -/
theorem claim_C10_counterexample :
    emptyLedger "myspace:bob".data = none
    ∧ (scrape_social_profile wEnv wTp .pollTimeout emptyLedger emptyLedger
        "myspace".data "bob".data).fineLedger "myspace:bob".data
      = some (PyFloat.ofInt 1000)
    ∧ (match (scrape_social_profile wEnv wTp .pollTimeout emptyLedger emptyLedger
        "myspace".data "bob".data).outcome with
      | .resp r => r.success
      | .httpError _ _ => true) = false :=
  ⟨rfl, rfl, rfl⟩

/-- C10 (amended): the coarse (`apify_scraper`, platform-key) ledger is left
unchanged by an unsupported-platform rejection and by a tight-window
rate-limit rejection; the fine (`social_scraper`, platform+username-key)
ledger is left unchanged by its rate-limit rejection (a hard 429 anywhere
inside the 10-minute window — it has no tight sub-window), but an
unsupported-platform request does update the fine ledger, because the write
precedes the platform check. -/
theorem claim_C10_theorem :
    (∀ (env : Env) (tp : List Json → ScrapeResponse) (path : VendorPath)
      (ledger : List Char → Option PyFloat) (p u : List Char),
      supportedPlatforms.contains (lowerStr p) = false →
      (apify_scrape_social_profile env tp path ledger p u).ledger = ledger)
    ∧ (∀ (env : Env) (tp : List Json → ScrapeResponse) (path : VendorPath)
      (ledger : List Char → Option PyFloat) (p u : List Char) (t : PyFloat),
      ledger ("apify_".data ++ lowerStr p) = some t →
      env.now - t < (10 : PyFloat) →
      (apify_scrape_social_profile env tp path ledger p u).ledger = ledger)
    ∧ (∀ (env : Env) (tp : List Json → ScrapeResponse) (path : VendorPath)
      (fineLedger coarseLedger : List Char → Option PyFloat) (p u : List Char) (t : PyFloat),
      fineLedger (p ++ ':' :: u) = some t →
      env.now - t < MIN_SCRAPE_INTERVAL_social →
      (scrape_social_profile env tp path fineLedger coarseLedger p u).fineLedger = fineLedger
      ∧ (∃ d, (scrape_social_profile env tp path fineLedger coarseLedger p u).outcome
          = .httpError 429 d))
    ∧ (∀ (env : Env) (tp : List Json → ScrapeResponse) (path : VendorPath)
      (fineLedger coarseLedger : List Char → Option PyFloat) (p u : List Char),
      fineLedger (p ++ ':' :: u) = none →
      supportedPlatforms.contains (lowerStr p) = false →
      (scrape_social_profile env tp path fineLedger coarseLedger p u).fineLedger
        (p ++ ':' :: u) = some env.now
      ∧ (match (scrape_social_profile env tp path fineLedger coarseLedger p u).outcome with
        | .resp r => r.success
        | .httpError _ _ => true) = false) := by
  refine ⟨?_, ?_, ?_, ?_⟩
  · intro env tp path ledger p u hsup
    rw [handler_unsupported env tp path ledger p u hsup]
  · intro env tp path ledger p u t hL hlt
    have hR : rateCheck ledger ("apify_".data ++ lowerStr p) env.now = none := by
      unfold rateCheck
      rw [hL]
      dsimp only
      rw [if_pos (PyFloat.lt_trans hlt (by decide)), if_pos hlt]
    by_cases hsup : supportedPlatforms.contains (lowerStr p) = false
    · rw [handler_unsupported env tp path ledger p u hsup]
    · unfold apify_scrape_social_profile
      dsimp only
      rw [if_neg hsup, hR]
  · intro env tp path fineLedger coarseLedger p u t hL hlt
    have hred : scrape_social_profile env tp path fineLedger coarseLedger p u
        = { outcome := .httpError 429
              ("Rate limit exceeded. Please try again in ".data
                ++ intToChars (PyFloat.trunc (MIN_SCRAPE_INTERVAL_social - (env.now - t)))
                ++ " seconds.".data)
            fineLedger := fineLedger, apify := none } := by
      unfold scrape_social_profile
      dsimp only
      rw [hL]
      dsimp only
      rw [if_pos hlt]
    rw [hred]
    exact ⟨rfl, ⟨_, rfl⟩⟩
  · intro env tp path fineLedger coarseLedger p u hL hsup
    have hsup2 : supportedPlatforms.contains (lowerStr (lowerStr p)) = false := by
      rw [lowerStr_idem]; exact hsup
    unfold scrape_social_profile
    dsimp only
    rw [hL]
    dsimp only
    rw [handler_unsupported env tp path coarseLedger (lowerStr p) u hsup2]
    constructor
    · simp
    · simp

/-- C10 (witness): the amended theorem applied concretely — a fine-ledger
rate-limit rejection (last attempt 100 s ago, inside the 10-minute window)
leaves the fine ledger unchanged, while an unsupported-platform request
records its attempt in the fine ledger. -/
theorem claim_C10_witness :
    (scrape_social_profile wEnv wTp .pollTimeout
        (singleLedger "instagram:alice".data (PyFloat.ofInt 900)) emptyLedger
        "instagram".data "alice".data).fineLedger
      = singleLedger "instagram:alice".data (PyFloat.ofInt 900)
    ∧ (scrape_social_profile wEnv wTp .pollTimeout emptyLedger emptyLedger
        "myspace".data "bob".data).fineLedger "myspace:bob".data = some wEnv.now :=
  ⟨(claim_C10_theorem.2.2.1 wEnv wTp .pollTimeout
      (singleLedger "instagram:alice".data (PyFloat.ofInt 900)) emptyLedger
      "instagram".data "alice".data (PyFloat.ofInt 900) rfl (by decide)).1,
   (claim_C10_theorem.2.2.2 wEnv wTp .pollTimeout emptyLedger emptyLedger
      "myspace".data "bob".data rfl (by decide)).1⟩

theorem mkQ_5_10000 : PyFloat.mkQ 5 10000 = ⟨5, 10000, by norm_num⟩ := by
  unfold PyFloat.mkQ
  rw [dif_pos (by norm_num)]

theorem growthRate_num_pos {rng : TimeSeriesRng}
    (hg1 : PyFloat.mkQ 5 10000 ≤ rng.growthRate) : 0 < rng.growthRate.num := by
  rw [mkQ_5_10000] at hg1
  have h2 : (5 : Int) * rng.growthRate.den ≤ rng.growthRate.num * 10000 := hg1
  have hd := rng.growthRate.denPos
  nlinarith

theorem followersAt_nonneg (rng : TimeSeriesRng) {n : Int} (hn : 0 ≤ n)
    (hg : 0 < rng.growthRate.num) : ∀ i, 0 ≤ followersAt rng n i := by
  intro i
  induction i with
  | zero => exact hn
  | succ k ih =>
    show 0 ≤ PyFloat.trunc
      (PyFloat.ofInt (followersAt rng n k) / (1 + rng.growthRate))
    have hd := rng.growthRate.denPos
    have hb : (0 : Int) < ((1 : PyFloat) + rng.growthRate).num := by
      show (0 : Int) < 1 * rng.growthRate.den + rng.growthRate.num * 1
      omega
    show 0 ≤ PyFloat.trunc
      (PyFloat.div (PyFloat.ofInt (followersAt rng n k)) ((1 : PyFloat) + rng.growthRate))
    unfold PyFloat.div
    rw [dif_pos hb]
    show 0 ≤ (followersAt rng n k * ((1 : PyFloat) + rng.growthRate).den).tdiv
      (1 * ((1 : PyFloat) + rng.growthRate).num)
    apply Int.tdiv_nonneg
    · apply mul_nonneg ih
      show (0 : Int) ≤ 1 * rng.growthRate.den
      omega
    · omega

/-- C7: for every non-negative follower count, `generate_time_series`
returns exactly 30 entries whose dates ascend strictly with consecutive
entries exactly one day apart, and every entry's follower value is ≥ 0
(the growth-rate hypothesis mirrors `random.uniform(0.0005, 0.003)`). -/
theorem claim_C7_theorem (rng : TimeSeriesRng) (today : Int) (n : Int)
    (hn : 0 ≤ n)
    (hg1 : PyFloat.mkQ 5 10000 ≤ rng.growthRate)
    (_hg2 : rng.growthRate ≤ PyFloat.mkQ 3 1000) :
    (generate_time_series rng today n).length = 30
    ∧ (∀ j, (h : j + 1 < (generate_time_series rng today n).length) →
        ((generate_time_series rng today n).get ⟨j + 1, h⟩).date
          = ((generate_time_series rng today n).get ⟨j, by omega⟩).date + 1)
    ∧ (∀ e ∈ generate_time_series rng today n, 0 ≤ e.followers) := by
  have hlen : (generate_time_series rng today n).length = 30 := by
    unfold generate_time_series
    simp
  have hget : ∀ j, (h : j < (generate_time_series rng today n).length) →
      (generate_time_series rng today n).get ⟨j, h⟩ = tsEntry rng today n (29 - j) := by
    intro j h
    unfold generate_time_series
    rw [List.get_eq_getElem]
    rw [List.getElem_map, List.getElem_reverse, List.getElem_range]
    simp
  refine ⟨hlen, ?_, ?_⟩
  · intro j h
    rw [hget (j + 1) h, hget j (by omega)]
    unfold tsEntry
    dsimp only
    have hj : j + 1 < 30 := by rw [hlen] at h; exact h
    have e1 : (29 - (j + 1) : Nat) = 28 - j := by omega
    rw [e1]
    have e2 : ((28 - j : Nat) : Int) + 1 = ((29 - j : Nat) : Int) := by omega
    omega
  · intro e he
    unfold generate_time_series at he
    obtain ⟨i, hi, rfl⟩ := List.mem_map.mp he
    show 0 ≤ followersAt rng n i
    exact followersAt_nonneg rng hn (growthRate_num_pos hg1) i

/-- C7 (witness): the theorem applied at the concrete oracle `wTs`
(growth rate 0.001) and 1000 followers. -/
theorem claim_C7_witness :
    (generate_time_series wTs 20000 1000).length = 30
    ∧ (∀ e ∈ generate_time_series wTs 20000 1000, 0 ≤ e.followers) :=
  ⟨(claim_C7_theorem wTs 20000 1000 (by decide) (by decide) (by decide)).1,
   (claim_C7_theorem wTs 20000 1000 (by decide) (by decide) (by decide)).2.2⟩

theorem pyChoice_mem {l : List (List Char)} {k : Nat} (h : l ≠ []) :
    pyChoice l k ∈ l := by
  unfold pyChoice
  have hlen : 0 < l.length := List.length_pos.mpr h
  have hk : k % l.length < l.length := Nat.mod_lt _ hlen
  rw [List.getD_eq_getElem?_getD, List.getElem?_eq_getElem hk]
  exact List.getElem_mem hk

theorem content_types_ne_nil (p : List Char) :
    tableGetD content_types p ["post".data] ≠ [] := by
  unfold content_types tableGetD
  split <;> try simp
  unfold tableGetD
  split <;> try simp
  unfold tableGetD
  split <;> try simp
  unfold tableGetD
  split <;> try simp
  unfold tableGetD
  split <;> try simp
  unfold tableGetD
  split <;> try simp
  unfold tableGetD
  simp

/-- C8: for every follower count and platform string,
`generate_content_performance` returns at most 10 items, every item's type
belongs to the platform's allowed content-type set (`post` only for
twitter; `post`/`reel`/`story` for instagram; `post` for unknown
platforms), and items are ordered most-recent-first (each item's date is no
later than the previous item's); the `dayOff` hypothesis mirrors
`random.randint(0, 2)`. -/
theorem claim_C8_theorem (rng : ContentRng) (nowEpoch today : Int) (n : Int)
    (platform : List Char) (hoff : ∀ i, rng.dayOff i ≤ 2) :
    (generate_content_performance rng nowEpoch today n platform).length ≤ 10
    ∧ (∀ item ∈ generate_content_performance rng nowEpoch today n platform,
        item.type ∈ tableGetD content_types (lowerStr platform) ["post".data])
    ∧ (∀ j, (h : j + 1 < (generate_content_performance rng nowEpoch today n platform).length) →
        ((generate_content_performance rng nowEpoch today n platform).get ⟨j + 1, h⟩).date
          ≤ ((generate_content_performance rng nowEpoch today n platform).get
              ⟨j, by omega⟩).date)
    ∧ tableGetD content_types (lowerStr "twitter".data) ["post".data] = ["post".data]
    ∧ tableGetD content_types (lowerStr "instagram".data) ["post".data]
        = ["post".data, "reel".data, "story".data]
    ∧ tableGetD content_types (lowerStr "myspace".data) ["post".data] = ["post".data] := by
  have hget : ∀ j, (h : j < (generate_content_performance rng nowEpoch today n platform).length) →
      (generate_content_performance rng nowEpoch today n platform).get ⟨j, h⟩
        = cpItem rng nowEpoch today n platform j := by
    intro j h
    unfold generate_content_performance
    rw [List.get_eq_getElem]
    rw [List.getElem_map, List.getElem_range]
  refine ⟨by unfold generate_content_performance; simp, ?_, ?_, by decide, by decide, by decide⟩
  · intro item hitem
    unfold generate_content_performance at hitem
    obtain ⟨i, _, rfl⟩ := List.mem_map.mp hitem
    show pyChoice (tableGetD content_types (lowerStr platform) ["post".data]) (rng.typeChoice i)
      ∈ tableGetD content_types (lowerStr platform) ["post".data]
    exact pyChoice_mem (content_types_ne_nil _)
  · intro j h
    rw [hget (j + 1) h, hget j (by omega)]
    unfold cpItem
    dsimp only
    have h1 := hoff j
    have h2 := hoff (j + 1)
    omega

/-- C8 (witness): the theorem applied at the concrete oracle `wCp`
(`dayOff = 0`) for platform instagram. -/
theorem claim_C8_witness :
    (generate_content_performance wCp 1700000000 20000 1000 "instagram".data).length ≤ 10
    ∧ (∀ item ∈ generate_content_performance wCp 1700000000 20000 1000 "instagram".data,
        item.type ∈ tableGetD content_types (lowerStr "instagram".data) ["post".data]) :=
  ⟨(claim_C8_theorem wCp 1700000000 20000 1000 "instagram".data
      (fun i => by show (0 : Nat) ≤ 2; decide)).1,
   (claim_C8_theorem wCp 1700000000 20000 1000 "instagram".data
      (fun i => by show (0 : Nat) ≤ 2; decide)).2.1⟩
